import Mathlib

/-!
Verification development for the wealth-management CRM backend
(`main.py` + `schemas.py`).

The embedding is a shallow one:

* JSON-like runtime values are the mutual inductive `Value` / `PairList` /
  `ValueList` (Python dicts keep insertion order, so a dict is an ordered
  pair list; numbers are exact rationals).
* The document store (module `database`, whose source is not under `src/`)
  is modelled from the spec as a key-value store with equality filters.
  Each store call consults a fault oracle `faults : Nat -> Bool`, indexed
  by the number of store operations performed so far, so that `StorageError`
  can be injected at any point of an execution.
* Python exception propagation is the `Except` layer of the monad `M`;
  a `try/except` block is `tryCatch`; an exception escaping a handler is
  `Resp.unhandled` (FastAPI turns it into a server error), while
  `raise HTTPException(400, ...)` is `Resp.httpError 400`.
-/

mutual

inductive Value where
  | null : Value
  | bool : Bool → Value
  | num : Rat → Value
  | str : String → Value
  /-- Opaque marker for `datetime.utcnow()`: the server clock at write time. -/
  | time : Value
  | list : ValueList → Value
  | dict : PairList → Value

/-- A Python dict (ordered key-value pairs), as used for documents. -/
inductive PairList where
  | nil : PairList
  | cons : String → Value → PairList → PairList

inductive ValueList where
  | nil : ValueList
  | cons : Value → ValueList → ValueList

end

deriving instance DecidableEq for Value, PairList, ValueList

/-- A document is a Python dict. -/
abbrev Doc := PairList

def PairList.ofList : List (String × Value) → PairList
  | [] => .nil
  | (k, v) :: rest => .cons k v (PairList.ofList rest)

/-- `d.get(k)` on a Python dict: the value at the first matching key. -/
def PairList.lookup : PairList → String → Option Value
  | .nil, _ => none
  | .cons k v rest, key => if k == key then some v else rest.lookup key

/-- `d.get(k)` with Python default `None`. -/
def PairList.getD (d : PairList) (key : String) : Value :=
  (d.lookup key).getD .null

/-- `list(d.keys())` on a Python dict. -/
def PairList.keyList : PairList → List String
  | .nil => []
  | .cons k _ rest => k :: rest.keyList

def PairList.allPairs : PairList → (String → Value → Bool) → Bool
  | .nil, _ => true
  | .cons k v rest, p => p k v && rest.allPairs p

def ValueList.ofList : List Value → ValueList
  | [] => .nil
  | v :: rest => .cons v (ValueList.ofList rest)

def ValueList.ofStrings (l : List String) : ValueList :=
  ValueList.ofList (l.map Value.str)

/-- Python truthiness of a runtime value. -/
def Value.truthy : Value → Bool
  | .null => false
  | .bool b => b
  | .num q => q != 0
  | .str s => s != ""
  | .time => true
  | .list .nil => false
  | .list (.cons _ _) => true
  | .dict .nil => false
  | .dict (.cons _ _ _) => true

/-- Python `a or b` on runtime values: `a` when truthy, else `b`. -/
def pyOr (a b : Value) : Value :=
  if a.truthy then a else b

/-- Numeric reading of a value, as accepted by Python `+` on numbers
(`bool` is a numeric type in Python). -/
def Value.toNum : Value → Option Rat
  | .num q => some q
  | .bool b => some (if b then 1 else 0)
  | _ => none

def optStr : Option String → Value
  | none => .null
  | some s => .str s

/-- Python `str.lower()`, written over the character list so that the
kernel can evaluate it (ASCII case mapping, which covers every string
this backend lowers). -/
def pyLower (s : String) : String := String.mk (s.data.map Char.toLower)

/-- Exact rational addition, written with `mkRat` so that the kernel can
evaluate it; it agrees with `Rat` addition (see `ratAdd_eq_add`). -/
def ratAdd (a b : Rat) : Rat :=
  mkRat (a.num * b.den + b.num * a.den) (a.den * b.den)

/-- State threaded through a request: the store contents (collection name
paired with the stored document, in insertion order), the next generated
identifier, the number of store operations performed so far, and the fault
oracle saying which store operations fail with `StorageError`. -/
structure DBState where
  docs : List (String × Doc)
  nextId : Nat
  opIdx : Nat
  faults : Nat → Bool

/-- A Python computation: it can read and write the store and raise
exceptions (the `Except.error` branch carries `str(e)`). -/
abbrev M (α : Type) := DBState → Except String α × DBState

def M.pure {α : Type} (a : α) : M α := fun s => (.ok a, s)

def M.bind {α β : Type} (m : M α) (f : α → M β) : M β := fun s =>
  match m s with
  | (.ok a, s') => f a s'
  | (.error e, s') => (.error e, s')

/-- A Python `try: m except Exception as e: h e`. -/
def M.tryCatch {α : Type} (m : M α) (h : String → M α) : M α := fun s =>
  match m s with
  | (.error e, s') => h e s'
  | r => r

/-- Lift a pure fallible computation (no store access). -/
def M.liftE {α : Type} (e : Except String α) : M α := fun s => (e, s)

def DBState.tick (s : DBState) : DBState := { s with opIdx := s.opIdx + 1 }

/-- Modelled from the spec: `database.create_document` (module `database`
is not under `src/`). Inserts `data` into `collection` and returns the
generated identifier; fails with `StorageError` when the store is
unreachable or rejects the write. Like MongoDB, the stored document also
carries its identifier under the key `_id`. -/
def create_document (collection : String) (data : Doc) : M String := fun s =>
  if s.faults s.opIdx then
    (.error "StorageError", s.tick)
  else
    let newId := "oid" ++ toString s.nextId
    (.ok newId,
      { s.tick with
        docs := s.docs ++ [(collection, .cons "_id" (.str newId) data)]
        nextId := s.nextId + 1 })

/-- A document matches a filter when every key of the filter is present in
the document with an equal value. -/
def docMatches (filter : Doc) (d : Doc) : Bool :=
  filter.allPairs (fun k v => d.lookup k == some v)

/-- Modelled from the spec: `database.get_documents` (module `database` is
not under `src/`). Returns up to `limit` documents of `collection`
matching an equality filter on each key of `filter` (empty filter = no
constraint), in store-natural (insertion) order; fails with
`StorageError` on connectivity failure. -/
def get_documents (collection : String) (filter : Doc) (limit : Nat) :
    M (List Doc) := fun s =>
  if s.faults s.opIdx then
    (.error "StorageError", s.tick)
  else
    (.ok ((((s.docs.filter (fun c => c.1 == collection)).map Prod.snd).filter
      (docMatches filter)).take limit), s.tick)

/-- What the HTTP layer sends back: a JSON body, an `HTTPException`
raised by the handler, or an exception that escaped the handler
(FastAPI then answers with a server error, not a 400). -/
inductive Resp where
  | ok : Value → Resp
  | httpError : Nat → String → Resp
  | unhandled : String → Resp
deriving DecidableEq

/-- An endpoint whose body is wrapped in
`try: ... except Exception as e: raise HTTPException(400, str(e))`. -/
def runGateway (m : M Value) : DBState → Resp × DBState := fun s =>
  match m s with
  | (.ok v, s') => (.ok v, s')
  | (.error e, s') => (.httpError 400 e, s')

/-- An endpoint with no exception handler: a raised exception escapes. -/
def runAI (m : M Value) : DBState → Resp × DBState := fun s =>
  match m s with
  | (.ok v, s') => (.ok v, s')
  | (.error e, s') => (.unhandled e, s')

/-- The Compliance document built by `_log_compliance` (`main.py` lines
70-87), field order as in the source dict literal. -/
def complianceDoc (action : String) (actor_id : Value) (resource_type : String)
    (resource_id : Value) (context : Doc) (labels : List String) : Doc :=
  .ofList
    [("action", .str action),
     ("actor_id", actor_id),
     ("resource_type", .str resource_type),
     ("resource_id", resource_id),
     ("context", .dict context),
     ("labels", .list (ValueList.ofStrings labels)),
     ("severity", .str "info"),
     ("timestamp", .time)]

/-- `_log_compliance` (`main.py` lines 70-87): best-effort compliance
write; the `try/except Exception: pass` swallows every failure.
`context.getD .nil` renders Python `context or ...` with the empty-dict
default (both `None` and an empty dict yield the empty dict). -/
def _log_compliance (action resource_type : String) (resource_id : Value)
    (labels : List String) (actor_id : Value) (context : Option Doc) : M Unit :=
  M.tryCatch
    (M.bind
      (create_document "compliance"
        (complianceDoc action actor_id resource_type resource_id
          (context.getD .nil) labels))
      (fun _ => M.pure ()))
    (fun _ => M.pure ())

structure CreatePayload where
  collection : String
  data : Doc

/-- Body of `POST /api/create` after the collection name is lower-cased
(`main.py` lines 90-106): create the document, write the compliance log,
return the new identifier. -/
def api_create_body (collection : String) (data : Doc) : M Value :=
  M.bind (create_document collection data) fun inserted_id =>
  M.bind (_log_compliance "create_document" collection (.str inserted_id)
      ["auto-log", "create"]
      (pyOr (data.getD "author_id") (data.getD "assignee_id"))
      (some (.ofList [("fields", .list (ValueList.ofStrings data.keyList))]))) fun _ =>
  M.pure (.dict (.ofList [("id", .str inserted_id)]))

/-- `POST /api/create` (`main.py` lines 90-106). -/
def api_create (payload : CreatePayload) : DBState → Resp × DBState :=
  runGateway (api_create_body (pyLower payload.collection) payload.data)

/-- `GET /api/list/(collection)` (`main.py` lines 109-115). -/
def api_list (collection : String) (limit : Nat) : DBState → Resp × DBState :=
  runGateway
    (M.bind (get_documents (pyLower collection) .nil limit) fun docs =>
      M.pure (.dict (.ofList
        [("items", .list (ValueList.ofList (docs.map Value.dict)))])))

structure PortfolioAnalysisRequest where
  household_id : Option String
  account_ids : List String
  objectives : List String
  constraints : Doc

structure TaxOptimizationRequest where
  household_id : Option String
  year : Int
  assumptions : Doc

structure EstatePlanningRequest where
  household_id : Option String
  goals : List String
  facts : Doc

/-- The `for acc_id in req.account_ids` loop of `ai_portfolio_analysis`
(`main.py` lines 127-129): one limit-1 query per identifier, results
concatenated in order. -/
def fetchByIds : List String → M (List Doc)
  | [] => M.pure []
  | acc_id :: rest =>
      M.bind (get_documents "account" (.ofList [("_id", .str acc_id)]) 1) fun results =>
      M.bind (fetchByIds rest) fun more =>
      M.pure (results ++ more)

/-- The account-fetching step of `ai_portfolio_analysis` (`main.py` lines
125-131): `if req.account_ids: ... elif req.household_id: ...` with
Python truthiness on the list and the optional string. -/
def fetchAccounts (req : PortfolioAnalysisRequest) : M (List Doc) :=
  match req.account_ids with
  | acc_id :: rest => fetchByIds (acc_id :: rest)
  | [] =>
    match req.household_id with
    | some h =>
        if h == "" then M.pure []
        else get_documents "account" (.ofList [("household_id", .str h)]) 500
    | none => M.pure []

/-- `a.get("balance", 0)` for an account document. -/
def balanceVal (a : Doc) : Value := (a.lookup "balance").getD (.num 0)

/-- Python `sum` over runtime values with a rational accumulator: raises
`TypeError` at the first non-numeric value. -/
def pySum : List Value → Rat → Except String Rat
  | [], acc => .ok acc
  | v :: rest, acc =>
    match v.toNum with
    | some q => pySum rest (ratAdd acc q)
    | none => .error "TypeError"

/-- The value `sum` computes when every value is numeric. -/
def sumNums (l : List Value) : Rat :=
  l.foldl (fun acc v => ratAdd acc (v.toNum.getD 0)) 0

/-- The fixed allocation constants of `ai_portfolio_analysis` (`main.py`
line 134): equities 0.6, fixed_income 0.35, cash 0.05. -/
def targetAllocations : Doc :=
  .ofList
    [("equities", .num (mkRat 3 5)),
     ("fixed_income", .num (mkRat 7 20)),
     ("cash", .num (mkRat 1 20))]

/-- The Recommendation document persisted by `ai_portfolio_analysis`
(`main.py` lines 137-148); `impact_score` 0.72 is `mkRat 18 25`. -/
def portfolioRecoDoc (household_id : Option String) (total : Rat) : Doc :=
  .ofList
    [("category", .str "investment"),
     ("title", .str "Rebalance to target policy mix"),
     ("rationale", .str "Target diversified allocation with emphasis on risk-adjusted returns."),
     ("impact_score", .num (mkRat 18 25)),
     ("household_id", optStr household_id),
     ("details", .dict (.ofList
        [("current_total", .num total),
         ("target_allocations", .dict targetAllocations)])),
     ("status", .str "proposed")]

/-- Body of `POST /api/ai/portfolio/analysis` (`main.py` lines 122-165);
note the source has no `try/except` here. -/
def ai_portfolio_analysis_body (req : PortfolioAnalysisRequest) : M Value :=
  M.bind (fetchAccounts req) fun accounts =>
  M.bind (M.liftE (pySum (accounts.map balanceVal) 0)) fun total =>
  M.bind (create_document "recommendation" (portfolioRecoDoc req.household_id total)) fun recommendation_id =>
  M.bind (_log_compliance "generate_recommendation" "recommendation" (.str recommendation_id)
      ["ai", "portfolio"] .null (some (.ofList [("category", .str "investment")]))) fun _ =>
  M.pure (.dict (.ofList
    [("summary", .dict (.ofList
        [("total_balance", .num total),
         ("target_allocations", .dict targetAllocations)])),
     ("recommendation_id", .str recommendation_id)]))

def ai_portfolio_analysis (req : PortfolioAnalysisRequest) :
    DBState → Resp × DBState :=
  runAI (ai_portfolio_analysis_body req)

/-- The fixed strategy object of `ai_tax_optimization` (`main.py` lines
172-176). -/
def taxStrategy : Doc :=
  .ofList
    [("harvest_loss_threshold", .num 3000),
     ("asset_location", .str "place bonds in tax-advantaged accounts"),
     ("roth_conversion", .str "consider partial conversions if current bracket < future")]

/-- The Recommendation document persisted by `ai_tax_optimization`
(`main.py` lines 178-188); `impact_score` 0.65 is `mkRat 13 20`. -/
def taxRecoDoc (year : Int) : Doc :=
  .ofList
    [("category", .str "tax"),
     ("title", .str ("Tax optimization opportunities for " ++ toString year)),
     ("rationale", .str "Based on standard tax-efficient investing heuristics."),
     ("impact_score", .num (mkRat 13 20)),
     ("details", .dict taxStrategy),
     ("status", .str "proposed")]

/-- Body of `POST /api/ai/tax/optimization` (`main.py` lines 168-199);
no `try/except` in the source. -/
def ai_tax_optimization_body (req : TaxOptimizationRequest) : M Value :=
  M.bind (create_document "recommendation" (taxRecoDoc req.year)) fun reco_id =>
  M.bind (_log_compliance "generate_recommendation" "recommendation" (.str reco_id)
      ["ai", "tax"] .null
      (some (.ofList [("category", .str "tax"), ("year", .num (mkRat req.year 1))]))) fun _ =>
  M.pure (.dict (.ofList
    [("recommendation_id", .str reco_id), ("strategy", .dict taxStrategy)]))

def ai_tax_optimization (req : TaxOptimizationRequest) :
    DBState → Resp × DBState :=
  runAI (ai_tax_optimization_body req)

/-- The fixed plan object of `ai_estate_plan` (`main.py` lines 204-208). -/
def estatePlan : Doc :=
  .ofList
    [("will_status", .str "review_needed"),
     ("trust_recommendation", .str "consider revocable living trust"),
     ("beneficiary_review", .str "ensure beneficiary designations align with goals")]

/-- The Recommendation document persisted by `ai_estate_plan` (`main.py`
lines 210-221); `impact_score` 0.58 is `mkRat 29 50`. -/
def estateRecoDoc (household_id : Option String) : Doc :=
  .ofList
    [("category", .str "estate"),
     ("title", .str "Estate planning review"),
     ("rationale", .str "Standard best-practice checks based on provided facts."),
     ("impact_score", .num (mkRat 29 50)),
     ("household_id", optStr household_id),
     ("details", .dict estatePlan),
     ("status", .str "proposed")]

/-- Body of `POST /api/ai/estate/plan` (`main.py` lines 202-232);
no `try/except` in the source. -/
def ai_estate_plan_body (req : EstatePlanningRequest) : M Value :=
  M.bind (create_document "recommendation" (estateRecoDoc req.household_id)) fun reco_id =>
  M.bind (_log_compliance "generate_recommendation" "recommendation" (.str reco_id)
      ["ai", "estate"] .null (some (.ofList [("category", .str "estate")]))) fun _ =>
  M.pure (.dict (.ofList
    [("recommendation_id", .str reco_id), ("plan", .dict estatePlan)]))

def ai_estate_plan (req : EstatePlanningRequest) :
    DBState → Resp × DBState :=
  runAI (ai_estate_plan_body req)

structure SeedRequest where
  count_clients : Nat

/-- `_random_pick` (`main.py` lines 243-246): `None` on an empty sequence,
else the element at `idx` modulo the length. -/
def _random_pick (seq : List Value) (idx : Nat) : Value :=
  if seq.isEmpty then .null else seq.getD (idx % seq.length) .null

def household_names : List String :=
  ["Johnson Household", "Patel Family", "Nguyen Household", "Garcia Family",
   "O\x27Connor Household"]

def risk_profiles : List String := ["Conservative", "Moderate", "Aggressive"]

def first_names : List String :=
  ["Alex", "Jordan", "Taylor", "Morgan", "Casey", "Riley", "Avery", "Quinn",
   "Peyton", "Dakota", "Jamie", "Cameron", "Robin", "Skyler", "Kendall",
   "Emerson", "Rowan", "Hayden", "Sage", "Reese"]

def last_names : List String :=
  ["Smith", "Lee", "Brown", "Wilson", "Martinez", "Clark", "Lopez", "Davis",
   "Lewis", "Walker"]

def account_types : List String :=
  ["taxable", "ira", "roth_ira", "401k", "529", "trust"]

def custodians : List String :=
  ["Fidelity", "Schwab", "Vanguard", "Pershing", "TD Ameritrade"]

/-- The fixed holdings list seeded on every demo account (`main.py` lines
317-321); weights 0.5, 0.4, 0.1. -/
def seedHoldings : Value :=
  .list (ValueList.ofList
    [.dict (.ofList [("ticker", .str "VTI"), ("weight", .num (mkRat 1 2))]),
     .dict (.ofList [("ticker", .str "BND"), ("weight", .num (mkRat 2 5))]),
     .dict (.ofList [("ticker", .str "CASH"), ("weight", .num (mkRat 1 10))])])

/-- The demo account document seeded at client index `i`, account index
`j` of `num_accounts` (`main.py` lines 303-323). The balance
`round(float(25000 * ((i + 1) ** 1.1)) * (0.6 + 0.4 * (j / max(1, num_accounts - 1))), 2)`
is IEEE-754 floating-point arithmetic, so it is kept as an abstract
parameter `bal`; no claim inspects seeded balances. -/
def seedAccountDoc (bal : Nat → Nat → Nat → Rat) (client_id : String)
    (hid : Value) (i j num_accounts : Nat) : Doc :=
  .ofList
    [("client_id", .str client_id),
     ("household_id", hid),
     ("account_type", .str (account_types.getD ((i + j) % account_types.length) "")),
     ("custodian", .str (custodians.getD ((i + j) % custodians.length) "")),
     ("account_number_masked", .str ("****" ++ toString (1000 + (i * 7 + j) % 9000))),
     ("balance", .num (bal i j num_accounts)),
     ("holdings", seedHoldings)]

/-- The inner `for j in range(num_accounts)` loop of `seed_demo`
(`main.py` lines 302-324), iterated over the list of account indexes. -/
def seedAccounts (bal : Nat → Nat → Nat → Rat) (client_id : String)
    (hid : Value) (i num_accounts : Nat) : List Nat → M Unit
  | [] => M.pure ()
  | j :: js =>
      M.bind (create_document "account" (seedAccountDoc bal client_id hid i j num_accounts)) fun account_id =>
      M.bind (_log_compliance "create_document" "account" (.str account_id)
          ["auto-log", "seed"] .null (some (.ofList [("seed", .bool true)]))) fun _ =>
      seedAccounts bal client_id hid i num_accounts js

/-- The household-creation loop of `seed_demo` (`main.py` lines 267-273),
iterated over `enumerate(household_names)`; returns the created
identifiers in order. -/
def seedHouseholds : List (Nat × String) → M (List String)
  | [] => M.pure []
  | (i, name) :: rest =>
      M.bind (create_document "household"
        (.ofList [("name", .str name),
                  ("risk_profile", _random_pick (risk_profiles.map Value.str) i)])) fun hid =>
      M.bind (_log_compliance "create_document" "household" (.str hid)
          ["auto-log", "seed"] .null (some (.ofList [("seed", .bool true)]))) fun _ =>
      M.bind (seedHouseholds rest) fun others =>
      M.pure (hid :: others)

/-- The client-creation loop of `seed_demo` (`main.py` lines 287-324),
iterated over `range(req.count_clients)`; returns `created_clients`. -/
def seedClients (bal : Nat → Nat → Nat → Rat) (household_ids : List String) :
    List Nat → M Nat
  | [] => M.pure 0
  | i :: ks =>
      let fn := first_names.getD (i % first_names.length) ""
      let ln := last_names.getD (i % last_names.length) ""
      let email := pyLower fn ++ "." ++ pyLower ln ++ "@example.com"
      let hid := _random_pick (household_ids.map Value.str) i
      M.bind (create_document "client"
        (.ofList [("first_name", .str fn), ("last_name", .str ln),
                  ("email", .str email), ("household_id", hid),
                  ("kyc_status", .str "approved")])) fun client_id =>
      M.bind (_log_compliance "create_document" "client" (.str client_id)
          ["auto-log", "seed"] .null (some (.ofList [("seed", .bool true)]))) fun _ =>
      M.bind (seedAccounts bal client_id hid i (i % 3 + 1) (List.range (i % 3 + 1))) fun _ =>
      M.bind (seedClients bal household_ids ks) fun rest =>
      M.pure (rest + 1)

/-- The response returned by `seed_demo` when a client already exists
(`main.py` line 255). -/
def seedSkipResp : Value :=
  .dict (.ofList
    [("status", .str "ok"),
     ("message", .str "Clients already exist; skipping seed."),
     ("created", .num 0)])

/-- Body of `POST /api/seed/demo` (`main.py` lines 249-328): the
non-atomic read-then-write guard, then households, clients and accounts. -/
def seed_demo_body (bal : Nat → Nat → Nat → Rat) (count_clients : Nat) : M Value :=
  M.bind (get_documents "client" .nil 1) fun existing =>
  match existing with
  | _ :: _ => M.pure seedSkipResp
  | [] =>
      M.bind (seedHouseholds household_names.enum) fun household_ids =>
      M.bind (seedClients bal household_ids (List.range count_clients)) fun created_clients =>
      M.pure (.dict (.ofList
        [("status", .str "ok"),
         ("message", .str "Demo data created"),
         ("created", .num (mkRat created_clients 1))]))

def seed_demo (bal : Nat → Nat → Nat → Rat) (req : SeedRequest) :
    DBState → Resp × DBState :=
  runGateway (seed_demo_body bal req.count_clients)

/-- `GET /` (`main.py` lines 37-39). -/
def read_root : DBState → Resp × DBState := fun s =>
  (.ok (.dict (.ofList [("message", .str "AI Wealth CRM Backend is running")])), s)

def schemaCollections : List String :=
  ["advisor", "household", "client", "account", "note", "task",
   "communication", "document", "recommendation", "compliance"]

/-- `GET /schema` (`main.py` lines 42-58). -/
def get_schema_registry : DBState → Resp × DBState := fun s =>
  (.ok (.dict (.ofList [("collections", .list (ValueList.ofStrings schemaCollections))])), s)

/-- Modelled from the spec: `GET /test` (`main.py` lines 332-357) is a
store-connectivity diagnostic over the `database.db` handle (module
`database` is not under `src/`). It only reads collection names, catches
every failure internally, and never writes; the body is abstracted to the
connection-status fields the source builds. -/
def test_database : DBState → Resp × DBState := fun s =>
  if s.faults s.opIdx then
    (.ok (.dict (.ofList
      [("backend", .str "✅ Running"),
       ("database", .str "❌ Not Available")])), s.tick)
  else
    (.ok (.dict (.ofList
      [("backend", .str "✅ Running"),
       ("database", .str "✅ Connected & Working"),
       ("collections", .list (ValueList.ofStrings ((s.docs.map Prod.fst).eraseDups.take 20)))])), s.tick)

/-- The computation only ever appends to the stored document list. -/
def AppendsDocs {α : Type} (m : M α) : Prop :=
  ∀ s, ∃ t, ((m s).2).docs = s.docs ++ t

/-- The computation never touches the stored document list. -/
def ReadsOnly {α : Type} (m : M α) : Prop :=
  ∀ s, ((m s).2).docs = s.docs

/-- The computation leaves the fault oracle unchanged. -/
def PreservesOracle {α : Type} (m : M α) : Prop :=
  ∀ s, ((m s).2).faults = s.faults

def noFaults : Nat → Bool := fun _ => false

/-- Fault oracle failing every store operation except the first. -/
def faultsAfterFirst : Nat → Bool := fun n => n != 0

/-- Fault oracle failing every store operation. -/
def allFaults : Nat → Bool := fun _ => true

def emptyState : DBState := ⟨[], 0, 0, noFaults⟩

def sampleAccount (h : String) (b : Rat) : String × Doc :=
  ("account", .ofList [("household_id", .str h), ("balance", .num b)])

/-- A store holding three accounts of household `h1` with balances
100, 200 and 300. -/
def threeAccountsState : DBState :=
  ⟨[sampleAccount "h1" (mkRat 100 1), sampleAccount "h1" (mkRat 200 1),
    sampleAccount "h1" (mkRat 300 1)], 0, 0, noFaults⟩

def zeroBal : Nat → Nat → Nat → Rat := fun _ _ _ => 0

/-- A store already holding one client document. -/
def clientState : DBState :=
  ⟨[("client", .ofList [("first_name", .str "Alex")])], 5, 3, noFaults⟩

/-- Top-level field of a successful JSON response. -/
def respField (r : Resp) (k : String) : Option Value :=
  match r with
  | .ok (.dict d) => d.lookup k
  | _ => none

/-- Field of the `summary` object of a successful JSON response. -/
def summaryField (r : Resp) (k : String) : Option Value :=
  match respField r "summary" with
  | some (.dict d) => d.lookup k
  | _ => none

theorem ratAdd_eq_add (a b : Rat) : ratAdd a b = a + b := by
  rw [ratAdd, Rat.add_def']

theorem preservesOracle_pure {α : Type} (a : α) : PreservesOracle (M.pure a) :=
  fun _ => rfl

theorem preservesOracle_bind {α β : Type} {m : M α} {f : α → M β}
    (hm : PreservesOracle m) (hf : ∀ a, PreservesOracle (f a)) :
    PreservesOracle (M.bind m f) := by
  intro s
  have h1 := hm s
  rcases h : m s with ⟨r, s'⟩
  rw [h] at h1
  cases r with
  | ok a =>
      have h2 := hf a s'
      simp only [PreservesOracle, M.bind, h]
      rw [h2, h1]
  | error e =>
      simp only [PreservesOracle, M.bind, h]
      exact h1

theorem preservesOracle_tryCatch {α : Type} {m : M α} {h : String → M α}
    (hm : PreservesOracle m) (hh : ∀ e, PreservesOracle (h e)) :
    PreservesOracle (M.tryCatch m h) := by
  intro s
  have h1 := hm s
  rcases hr : m s with ⟨r, s'⟩
  rw [hr] at h1
  cases r with
  | ok a =>
      simp only [PreservesOracle, M.tryCatch, hr]
      exact h1
  | error e =>
      have h2 := hh e s'
      simp only [PreservesOracle, M.tryCatch, hr]
      rw [h2, h1]

theorem preservesOracle_liftE {α : Type} (e : Except String α) :
    PreservesOracle (M.liftE e) := fun _ => rfl

theorem preservesOracle_create (collection : String) (data : Doc) :
    PreservesOracle (create_document collection data) := by
  intro s
  unfold create_document
  split <;> rfl

theorem preservesOracle_get (collection : String) (filter : Doc) (limit : Nat) :
    PreservesOracle (get_documents collection filter limit) := by
  intro s
  unfold get_documents
  split <;> rfl

theorem preservesOracle_log (action resource_type : String) (resource_id : Value)
    (labels : List String) (actor_id : Value) (context : Option Doc) :
    PreservesOracle (_log_compliance action resource_type resource_id labels actor_id context) :=
  preservesOracle_tryCatch
    (preservesOracle_bind (preservesOracle_create _ _) (fun _ => preservesOracle_pure _))
    (fun _ => preservesOracle_pure _)

theorem appendsDocs_pure {α : Type} (a : α) : AppendsDocs (M.pure a) :=
  fun s => ⟨[], by simp [M.pure]⟩

theorem appendsDocs_bind {α β : Type} {m : M α} {f : α → M β}
    (hm : AppendsDocs m) (hf : ∀ a, AppendsDocs (f a)) :
    AppendsDocs (M.bind m f) := by
  intro s
  obtain ⟨t1, h1⟩ := hm s
  rcases h : m s with ⟨r, s'⟩
  rw [h] at h1
  cases r with
  | ok a =>
      obtain ⟨t2, h2⟩ := hf a s'
      refine ⟨t1 ++ t2, ?_⟩
      simp only [AppendsDocs, M.bind, h]
      rw [h2, h1, List.append_assoc]
  | error e =>
      refine ⟨t1, ?_⟩
      simp only [AppendsDocs, M.bind, h]
      exact h1

theorem appendsDocs_tryCatch {α : Type} {m : M α} {h : String → M α}
    (hm : AppendsDocs m) (hh : ∀ e, AppendsDocs (h e)) :
    AppendsDocs (M.tryCatch m h) := by
  intro s
  obtain ⟨t1, h1⟩ := hm s
  rcases hr : m s with ⟨r, s'⟩
  rw [hr] at h1
  cases r with
  | ok a =>
      refine ⟨t1, ?_⟩
      simp only [AppendsDocs, M.tryCatch, hr]
      exact h1
  | error e =>
      obtain ⟨t2, h2⟩ := hh e s'
      refine ⟨t1 ++ t2, ?_⟩
      simp only [AppendsDocs, M.tryCatch, hr]
      rw [h2, h1, List.append_assoc]

theorem appendsDocs_liftE {α : Type} (e : Except String α) :
    AppendsDocs (M.liftE e) := fun s => ⟨[], by simp [M.liftE]⟩

theorem appendsDocs_create (collection : String) (data : Doc) :
    AppendsDocs (create_document collection data) := by
  intro s
  unfold create_document
  split
  · exact ⟨[], by simp [DBState.tick]⟩
  · exact ⟨[(collection, .cons "_id" (.str ("oid" ++ toString s.nextId)) data)], rfl⟩

theorem appendsDocs_get (collection : String) (filter : Doc) (limit : Nat) :
    AppendsDocs (get_documents collection filter limit) := by
  intro s
  unfold get_documents
  split <;> exact ⟨[], by simp [DBState.tick]⟩

theorem appendsDocs_log (action resource_type : String) (resource_id : Value)
    (labels : List String) (actor_id : Value) (context : Option Doc) :
    AppendsDocs (_log_compliance action resource_type resource_id labels actor_id context) :=
  appendsDocs_tryCatch
    (appendsDocs_bind (appendsDocs_create _ _) (fun _ => appendsDocs_pure _))
    (fun _ => appendsDocs_pure _)

theorem readsOnly_pure {α : Type} (a : α) : ReadsOnly (M.pure a) :=
  fun _ => rfl

theorem readsOnly_bind {α β : Type} {m : M α} {f : α → M β}
    (hm : ReadsOnly m) (hf : ∀ a, ReadsOnly (f a)) :
    ReadsOnly (M.bind m f) := by
  intro s
  have h1 := hm s
  rcases h : m s with ⟨r, s'⟩
  rw [h] at h1
  cases r with
  | ok a =>
      have h2 := hf a s'
      simp only [ReadsOnly, M.bind, h]
      rw [h2, h1]
  | error e =>
      simp only [ReadsOnly, M.bind, h]
      exact h1

theorem readsOnly_get (collection : String) (filter : Doc) (limit : Nat) :
    ReadsOnly (get_documents collection filter limit) := by
  intro s
  unfold get_documents
  split <;> rfl

theorem runGateway_snd (m : M Value) (s : DBState) :
    (runGateway m s).2 = (m s).2 := by
  unfold runGateway
  rcases h : m s with ⟨r, s'⟩
  cases r <;> simp

theorem runAI_snd (m : M Value) (s : DBState) :
    (runAI m s).2 = (m s).2 := by
  unfold runAI
  rcases h : m s with ⟨r, s'⟩
  cases r <;> simp

theorem appendsDocs_api_create_body (collection : String) (data : Doc) :
    AppendsDocs (api_create_body collection data) :=
  appendsDocs_bind (appendsDocs_create _ _) fun _ =>
    appendsDocs_bind (appendsDocs_log _ _ _ _ _ _) fun _ => appendsDocs_pure _

theorem appendsDocs_fetchByIds (ids : List String) :
    AppendsDocs (fetchByIds ids) := by
  induction ids with
  | nil => exact appendsDocs_pure _
  | cons acc_id rest ih =>
      exact appendsDocs_bind (appendsDocs_get _ _ _) fun _ =>
        appendsDocs_bind ih fun _ => appendsDocs_pure _

theorem readsOnly_fetchByIds (ids : List String) :
    ReadsOnly (fetchByIds ids) := by
  induction ids with
  | nil => exact readsOnly_pure _
  | cons acc_id rest ih =>
      exact readsOnly_bind (readsOnly_get _ _ _) fun _ =>
        readsOnly_bind ih fun _ => readsOnly_pure _

theorem preservesOracle_fetchByIds (ids : List String) :
    PreservesOracle (fetchByIds ids) := by
  induction ids with
  | nil => exact preservesOracle_pure _
  | cons acc_id rest ih =>
      exact preservesOracle_bind (preservesOracle_get _ _ _) fun _ =>
        preservesOracle_bind ih fun _ => preservesOracle_pure _

theorem readsOnly_fetchAccounts (req : PortfolioAnalysisRequest) :
    ReadsOnly (fetchAccounts req) := by
  unfold fetchAccounts
  rcases req.account_ids with _ | ⟨a, rest⟩
  · rcases req.household_id with _ | h
    · exact readsOnly_pure _
    · dsimp only
      split
      · exact readsOnly_pure _
      · exact readsOnly_get _ _ _
  · exact readsOnly_fetchByIds _

theorem preservesOracle_fetchAccounts (req : PortfolioAnalysisRequest) :
    PreservesOracle (fetchAccounts req) := by
  unfold fetchAccounts
  rcases req.account_ids with _ | ⟨a, rest⟩
  · rcases req.household_id with _ | h
    · exact preservesOracle_pure _
    · dsimp only
      split
      · exact preservesOracle_pure _
      · exact preservesOracle_get _ _ _
  · exact preservesOracle_fetchByIds _

theorem appendsDocs_fetchAccounts (req : PortfolioAnalysisRequest) :
    AppendsDocs (fetchAccounts req) := by
  intro s
  exact ⟨[], by rw [readsOnly_fetchAccounts req s, List.append_nil]⟩

theorem appendsDocs_ai_portfolio_body (req : PortfolioAnalysisRequest) :
    AppendsDocs (ai_portfolio_analysis_body req) :=
  appendsDocs_bind (appendsDocs_fetchAccounts _) fun _ =>
    appendsDocs_bind (appendsDocs_liftE _) fun _ =>
      appendsDocs_bind (appendsDocs_create _ _) fun _ =>
        appendsDocs_bind (appendsDocs_log _ _ _ _ _ _) fun _ => appendsDocs_pure _

theorem appendsDocs_ai_tax_body (req : TaxOptimizationRequest) :
    AppendsDocs (ai_tax_optimization_body req) :=
  appendsDocs_bind (appendsDocs_create _ _) fun _ =>
    appendsDocs_bind (appendsDocs_log _ _ _ _ _ _) fun _ => appendsDocs_pure _

theorem appendsDocs_ai_estate_body (req : EstatePlanningRequest) :
    AppendsDocs (ai_estate_plan_body req) :=
  appendsDocs_bind (appendsDocs_create _ _) fun _ =>
    appendsDocs_bind (appendsDocs_log _ _ _ _ _ _) fun _ => appendsDocs_pure _

theorem appendsDocs_seedAccounts (bal : Nat → Nat → Nat → Rat)
    (client_id : String) (hid : Value) (i num_accounts : Nat) (js : List Nat) :
    AppendsDocs (seedAccounts bal client_id hid i num_accounts js) := by
  induction js with
  | nil => exact appendsDocs_pure _
  | cons j js ih =>
      exact appendsDocs_bind (appendsDocs_create _ _) fun _ =>
        appendsDocs_bind (appendsDocs_log _ _ _ _ _ _) fun _ => ih

theorem appendsDocs_seedHouseholds (l : List (Nat × String)) :
    AppendsDocs (seedHouseholds l) := by
  induction l with
  | nil => exact appendsDocs_pure _
  | cons p rest ih =>
      rcases p with ⟨i, name⟩
      exact appendsDocs_bind (appendsDocs_create _ _) fun _ =>
        appendsDocs_bind (appendsDocs_log _ _ _ _ _ _) fun _ =>
          appendsDocs_bind ih fun _ => appendsDocs_pure _

theorem appendsDocs_seedClients (bal : Nat → Nat → Nat → Rat)
    (household_ids : List String) (ks : List Nat) :
    AppendsDocs (seedClients bal household_ids ks) := by
  induction ks with
  | nil => exact appendsDocs_pure _
  | cons i ks ih =>
      exact appendsDocs_bind (appendsDocs_create _ _) fun _ =>
        appendsDocs_bind (appendsDocs_log _ _ _ _ _ _) fun _ =>
          appendsDocs_bind (appendsDocs_seedAccounts _ _ _ _ _ _) fun _ =>
            appendsDocs_bind ih fun _ => appendsDocs_pure _

theorem appendsDocs_seed_demo_body (bal : Nat → Nat → Nat → Rat)
    (count_clients : Nat) : AppendsDocs (seed_demo_body bal count_clients) :=
  appendsDocs_bind (appendsDocs_get _ _ _) fun existing => by
    rcases existing with _ | ⟨d, rest⟩
    · exact appendsDocs_bind (appendsDocs_seedHouseholds _) fun _ =>
        appendsDocs_bind (appendsDocs_seedClients _ _ _) fun _ => appendsDocs_pure _
    · exact appendsDocs_pure _

theorem log_compliance_fst (action resource_type : String) (resource_id : Value)
    (labels : List String) (actor_id : Value) (context : Option Doc) (s : DBState) :
    (_log_compliance action resource_type resource_id labels actor_id context s).1 =
      Except.ok () := by
  unfold _log_compliance M.tryCatch M.bind create_document M.pure
  by_cases h : s.faults s.opIdx
  · simp [h]
  · simp [h]

theorem bind_log_eq {β : Type} (action resource_type : String) (resource_id : Value)
    (labels : List String) (actor_id : Value) (context : Option Doc)
    (f : Unit → M β) (s : DBState) :
    M.bind (_log_compliance action resource_type resource_id labels actor_id context) f s =
      f () ((_log_compliance action resource_type resource_id labels actor_id context s).2) := by
  unfold M.bind
  rcases h : _log_compliance action resource_type resource_id labels actor_id context s with ⟨r, s'⟩
  have h1 := log_compliance_fst action resource_type resource_id labels actor_id context s
  rw [h] at h1
  simp only at h1
  subst h1
  rfl

theorem bind_create_eq {β : Type} (c : String) (d : Doc) (f : String → M β)
    (s : DBState) (h0 : s.faults s.opIdx = false) :
    M.bind (create_document c d) f s =
      f ("oid" ++ toString s.nextId)
        ⟨s.docs ++ [(c, .cons "_id" (.str ("oid" ++ toString s.nextId)) d)],
         s.nextId + 1, s.opIdx + 1, s.faults⟩ := by
  unfold M.bind create_document DBState.tick
  simp [h0]

theorem bind_create_fail {β : Type} (c : String) (d : Doc) (f : String → M β)
    (s : DBState) (h0 : s.faults s.opIdx = true) :
    M.bind (create_document c d) f s =
      (.error "StorageError", ⟨s.docs, s.nextId, s.opIdx + 1, s.faults⟩) := by
  unfold M.bind create_document DBState.tick
  simp [h0]

theorem bind_get_eq {β : Type} (c : String) (flt : Doc) (lim : Nat)
    (f : List Doc → M β) (s : DBState) (h0 : s.faults s.opIdx = false) :
    M.bind (get_documents c flt lim) f s =
      f ((((s.docs.filter (fun x => x.1 == c)).map Prod.snd).filter
            (docMatches flt)).take lim)
        ⟨s.docs, s.nextId, s.opIdx + 1, s.faults⟩ := by
  unfold M.bind get_documents DBState.tick
  simp [h0]

theorem bind_get_fail {β : Type} (c : String) (flt : Doc) (lim : Nat)
    (f : List Doc → M β) (s : DBState) (h0 : s.faults s.opIdx = true) :
    M.bind (get_documents c flt lim) f s =
      (.error "StorageError", ⟨s.docs, s.nextId, s.opIdx + 1, s.faults⟩) := by
  unfold M.bind get_documents DBState.tick
  simp [h0]

theorem log_compliance_eval (action resource_type : String) (resource_id : Value)
    (labels : List String) (actor_id : Value) (context : Option Doc)
    (s : DBState) (h0 : s.faults s.opIdx = false) :
    _log_compliance action resource_type resource_id labels actor_id context s =
      (.ok (),
       ⟨s.docs ++ [("compliance",
          .cons "_id" (.str ("oid" ++ toString s.nextId))
            (complianceDoc action actor_id resource_type resource_id
              (context.getD .nil) labels))],
        s.nextId + 1, s.opIdx + 1, s.faults⟩) := by
  unfold _log_compliance M.tryCatch M.bind M.pure create_document DBState.tick
  simp [h0]

theorem log_compliance_fail (action resource_type : String) (resource_id : Value)
    (labels : List String) (actor_id : Value) (context : Option Doc)
    (s : DBState) (h0 : s.faults s.opIdx = true) :
    _log_compliance action resource_type resource_id labels actor_id context s =
      (.ok (), ⟨s.docs, s.nextId, s.opIdx + 1, s.faults⟩) := by
  unfold _log_compliance M.tryCatch M.bind M.pure create_document DBState.tick
  simp [h0]

theorem bind_eq {α β : Type} {m : M α} {a : α} {s s' : DBState}
    (h : m s = (.ok a, s')) (f : α → M β) : M.bind m f s = f a s' := by
  unfold M.bind
  rw [h]

theorem api_create_eval_resp (payload : CreatePayload) (s : DBState)
    (h0 : s.faults s.opIdx = false) :
    (api_create payload s).1 =
      Resp.ok (.dict (.ofList [("id", .str ("oid" ++ toString s.nextId))])) := by
  simp only [api_create, runGateway, api_create_body, bind_create_eq _ _ _ _ h0,
    bind_log_eq, M.pure]

theorem api_create_eval (payload : CreatePayload) (s : DBState)
    (hf : ∀ n, s.faults n = false) :
    api_create payload s =
      (Resp.ok (.dict (.ofList [("id", .str ("oid" ++ toString s.nextId))])),
       ⟨s.docs ++
          [((pyLower payload.collection),
            .cons "_id" (.str ("oid" ++ toString s.nextId)) payload.data),
           ("compliance",
            .cons "_id" (.str ("oid" ++ toString (s.nextId + 1)))
              (complianceDoc "create_document"
                (pyOr (payload.data.getD "author_id") (payload.data.getD "assignee_id"))
                (pyLower payload.collection) (.str ("oid" ++ toString s.nextId))
                (.ofList [("fields", .list (ValueList.ofStrings payload.data.keyList))])
                ["auto-log", "create"]))],
        s.nextId + 2, s.opIdx + 2, s.faults⟩) := by
  simp only [api_create, runGateway, api_create_body, bind_create_eq, bind_log_eq,
    log_compliance_eval, hf, M.pure, Option.getD_some, List.append_assoc,
    List.cons_append, List.nil_append]

theorem api_create_eval_fail (payload : CreatePayload) (s : DBState)
    (h0 : s.faults s.opIdx = true) :
    api_create payload s =
      (Resp.httpError 400 "StorageError",
       ⟨s.docs, s.nextId, s.opIdx + 1, s.faults⟩) := by
  simp only [api_create, runGateway, api_create_body, bind_create_fail _ _ _ _ h0]

theorem api_list_eval (collection : String) (limit : Nat) (s : DBState)
    (h0 : s.faults s.opIdx = false) :
    api_list collection limit s =
      (Resp.ok (.dict (.ofList
        [("items", .list (ValueList.ofList
            (((((s.docs.filter (fun x => x.1 == (pyLower collection))).map Prod.snd).filter
              (docMatches .nil)).take limit).map Value.dict)))])),
       ⟨s.docs, s.nextId, s.opIdx + 1, s.faults⟩) := by
  simp only [api_list, runGateway, bind_get_eq _ _ _ _ _ h0, M.pure]

theorem api_list_eval_fail (collection : String) (limit : Nat) (s : DBState)
    (h0 : s.faults s.opIdx = true) :
    api_list collection limit s =
      (Resp.httpError 400 "StorageError",
       ⟨s.docs, s.nextId, s.opIdx + 1, s.faults⟩) := by
  simp only [api_list, runGateway, bind_get_fail _ _ _ _ _ h0]

theorem ai_tax_eval_resp (req : TaxOptimizationRequest) (s : DBState)
    (h0 : s.faults s.opIdx = false) :
    (ai_tax_optimization req s).1 =
      Resp.ok (.dict (.ofList
        [("recommendation_id", .str ("oid" ++ toString s.nextId)),
         ("strategy", .dict taxStrategy)])) := by
  simp only [ai_tax_optimization, runAI, ai_tax_optimization_body,
    bind_create_eq _ _ _ _ h0, bind_log_eq, M.pure]

theorem ai_tax_eval (req : TaxOptimizationRequest) (s : DBState)
    (hf : ∀ n, s.faults n = false) :
    ai_tax_optimization req s =
      (Resp.ok (.dict (.ofList
        [("recommendation_id", .str ("oid" ++ toString s.nextId)),
         ("strategy", .dict taxStrategy)])),
       ⟨s.docs ++
          [("recommendation",
            .cons "_id" (.str ("oid" ++ toString s.nextId)) (taxRecoDoc req.year)),
           ("compliance",
            .cons "_id" (.str ("oid" ++ toString (s.nextId + 1)))
              (complianceDoc "generate_recommendation" .null "recommendation"
                (.str ("oid" ++ toString s.nextId))
                (.ofList [("category", .str "tax"), ("year", .num (mkRat req.year 1))])
                ["ai", "tax"]))],
        s.nextId + 2, s.opIdx + 2, s.faults⟩) := by
  simp only [ai_tax_optimization, runAI, ai_tax_optimization_body, bind_create_eq,
    bind_log_eq, log_compliance_eval, hf, M.pure, Option.getD_some,
    List.append_assoc, List.cons_append, List.nil_append]

theorem ai_tax_eval_fail (req : TaxOptimizationRequest) (s : DBState)
    (h0 : s.faults s.opIdx = true) :
    ai_tax_optimization req s =
      (Resp.unhandled "StorageError",
       ⟨s.docs, s.nextId, s.opIdx + 1, s.faults⟩) := by
  simp only [ai_tax_optimization, runAI, ai_tax_optimization_body,
    bind_create_fail _ _ _ _ h0]

theorem ai_estate_eval_resp (req : EstatePlanningRequest) (s : DBState)
    (h0 : s.faults s.opIdx = false) :
    (ai_estate_plan req s).1 =
      Resp.ok (.dict (.ofList
        [("recommendation_id", .str ("oid" ++ toString s.nextId)),
         ("plan", .dict estatePlan)])) := by
  simp only [ai_estate_plan, runAI, ai_estate_plan_body,
    bind_create_eq _ _ _ _ h0, bind_log_eq, M.pure]

theorem ai_estate_eval (req : EstatePlanningRequest) (s : DBState)
    (hf : ∀ n, s.faults n = false) :
    ai_estate_plan req s =
      (Resp.ok (.dict (.ofList
        [("recommendation_id", .str ("oid" ++ toString s.nextId)),
         ("plan", .dict estatePlan)])),
       ⟨s.docs ++
          [("recommendation",
            .cons "_id" (.str ("oid" ++ toString s.nextId))
              (estateRecoDoc req.household_id)),
           ("compliance",
            .cons "_id" (.str ("oid" ++ toString (s.nextId + 1)))
              (complianceDoc "generate_recommendation" .null "recommendation"
                (.str ("oid" ++ toString s.nextId))
                (.ofList [("category", .str "estate")])
                ["ai", "estate"]))],
        s.nextId + 2, s.opIdx + 2, s.faults⟩) := by
  simp only [ai_estate_plan, runAI, ai_estate_plan_body, bind_create_eq,
    bind_log_eq, log_compliance_eval, hf, M.pure, Option.getD_some,
    List.append_assoc, List.cons_append, List.nil_append]

theorem ai_estate_eval_fail (req : EstatePlanningRequest) (s : DBState)
    (h0 : s.faults s.opIdx = true) :
    ai_estate_plan req s =
      (Resp.unhandled "StorageError",
       ⟨s.docs, s.nextId, s.opIdx + 1, s.faults⟩) := by
  simp only [ai_estate_plan, runAI, ai_estate_plan_body,
    bind_create_fail _ _ _ _ h0]

theorem ai_portfolio_eval (req : PortfolioAnalysisRequest) (s s1 : DBState)
    (accs : List Doc) (total : Rat)
    (hacc : fetchAccounts req s = (.ok accs, s1))
    (hsum : pySum (accs.map balanceVal) 0 = .ok total)
    (hf1 : ∀ n, s1.faults n = false) :
    ai_portfolio_analysis req s =
      (Resp.ok (.dict (.ofList
        [("summary", .dict (.ofList
            [("total_balance", .num total),
             ("target_allocations", .dict targetAllocations)])),
         ("recommendation_id", .str ("oid" ++ toString s1.nextId))])),
       ⟨s1.docs ++
          [("recommendation",
            .cons "_id" (.str ("oid" ++ toString s1.nextId))
              (portfolioRecoDoc req.household_id total)),
           ("compliance",
            .cons "_id" (.str ("oid" ++ toString (s1.nextId + 1)))
              (complianceDoc "generate_recommendation" .null "recommendation"
                (.str ("oid" ++ toString s1.nextId))
                (.ofList [("category", .str "investment")])
                ["ai", "portfolio"]))],
        s1.nextId + 2, s1.opIdx + 2, s1.faults⟩) := by
  have hlift : M.liftE (pySum (accs.map balanceVal) 0) s1 = (.ok total, s1) := by
    unfold M.liftE
    rw [hsum]
  simp only [ai_portfolio_analysis, runAI, ai_portfolio_analysis_body,
    bind_eq hacc, bind_eq hlift, bind_create_eq, bind_log_eq,
    log_compliance_eval, hf1, M.pure, Option.getD_some,
    List.append_assoc, List.cons_append, List.nil_append]

theorem bind_err {α β : Type} {m : M α} {e : String} {s s' : DBState}
    (h : m s = (.error e, s')) (f : α → M β) : M.bind m f s = (.error e, s') := by
  unfold M.bind
  rw [h]

theorem docMatches_nil (d : Doc) : docMatches .nil d = true := rfl

theorem pySum_ok (l : List Value) (acc : Rat)
    (h : ∀ v ∈ l, (v.toNum).isSome) :
    pySum l acc = .ok (l.foldl (fun a v => ratAdd a (v.toNum.getD 0)) acc) := by
  induction l generalizing acc with
  | nil => rfl
  | cons v rest ih =>
      obtain ⟨q, hq⟩ := Option.isSome_iff_exists.mp (h v (by simp))
      unfold pySum
      rw [hq]
      show pySum rest (ratAdd acc q) = _
      rw [ih (ratAdd acc q) (fun w hw => h w (by simp [hw]))]
      simp [hq]

theorem pySum_eq_sumNums (l : List Value)
    (h : ∀ v ∈ l, (v.toNum).isSome) :
    pySum l 0 = .ok (sumNums l) :=
  pySum_ok l 0 h

theorem ai_portfolio_eval_fail (req : PortfolioAnalysisRequest) (s : DBState)
    (h0 : s.faults s.opIdx = true) :
    (ai_portfolio_analysis req s).1 = Resp.unhandled "StorageError" := by
  unfold ai_portfolio_analysis runAI ai_portfolio_analysis_body
  rcases hids : req.account_ids with _ | ⟨a, rest⟩
  · rcases hh : req.household_id with _ | h
    · have hfetch : fetchAccounts req s = (.ok [], s) := by
        unfold fetchAccounts
        rw [hids, hh]
        rfl
      have hlift : M.liftE (pySum (([] : List Doc).map balanceVal) 0) s =
          (.ok 0, s) := rfl
      simp only [bind_eq hfetch, bind_eq hlift, bind_create_fail _ _ _ _ h0]
    · by_cases he : h == ""
      · have hfetch : fetchAccounts req s = (.ok [], s) := by
          unfold fetchAccounts
          rw [hids, hh]
          simp [he, M.pure]
        have hlift : M.liftE (pySum (([] : List Doc).map balanceVal) 0) s =
            (.ok 0, s) := rfl
        simp only [bind_eq hfetch, bind_eq hlift, bind_create_fail _ _ _ _ h0]
      · have hfetch : fetchAccounts req s =
            (.error "StorageError", ⟨s.docs, s.nextId, s.opIdx + 1, s.faults⟩) := by
          unfold fetchAccounts
          rw [hids, hh]
          simp only [he, Bool.false_eq_true, if_false]
          unfold get_documents DBState.tick
          simp [h0]
        simp only [bind_err hfetch]
  · have hfetch : fetchAccounts req s =
        (.error "StorageError", ⟨s.docs, s.nextId, s.opIdx + 1, s.faults⟩) := by
      unfold fetchAccounts
      rw [hids]
      unfold fetchByIds
      exact bind_get_fail _ _ _ _ _ h0
    simp only [bind_err hfetch]

theorem seed_demo_skip (bal : Nat → Nat → Nat → Rat) (req : SeedRequest)
    (s : DBState) (h0 : s.faults s.opIdx = false)
    (hcl : s.docs.filter (fun x => x.1 == "client") ≠ []) :
    seed_demo bal req s =
      (Resp.ok seedSkipResp, ⟨s.docs, s.nextId, s.opIdx + 1, s.faults⟩) := by
  unfold seed_demo runGateway seed_demo_body
  rcases hfil : s.docs.filter (fun x => x.1 == "client") with _ | ⟨p, rest⟩
  · exact absurd hfil hcl
  · rw [bind_get_eq _ _ _ _ _ h0, hfil]
    simp [docMatches_nil, M.pure]

theorem seed_demo_eval_fail (bal : Nat → Nat → Nat → Rat) (req : SeedRequest)
    (s : DBState) (h0 : s.faults s.opIdx = true) :
    seed_demo bal req s =
      (Resp.httpError 400 "StorageError",
       ⟨s.docs, s.nextId, s.opIdx + 1, s.faults⟩) := by
  unfold seed_demo runGateway seed_demo_body
  rw [bind_get_fail _ _ _ _ _ h0]

theorem ai_portfolio_resp_ignores_rest (hh h' : Option String) (ids : List String)
    (o o' : List String) (c c' : Doc) (s : DBState) (hne : ids ≠ []) :
    (ai_portfolio_analysis ⟨hh, ids, o, c⟩ s).1 =
      (ai_portfolio_analysis ⟨h', ids, o', c'⟩ s).1 := by
  have hfi : fetchAccounts ⟨hh, ids, o, c⟩ = fetchAccounts ⟨h', ids, o', c'⟩ := by
    rcases ids with _ | ⟨a, rest⟩
    · exact absurd rfl hne
    · rfl
  rcases hr : fetchAccounts ⟨h', ids, o', c'⟩ s with ⟨r, s1⟩
  have hl : fetchAccounts ⟨hh, ids, o, c⟩ s = (r, s1) := by rw [hfi, hr]
  cases r with
  | error e =>
      simp only [ai_portfolio_analysis, runAI, ai_portfolio_analysis_body,
        bind_err hl, bind_err hr]
  | ok accs =>
      rcases hps : pySum (accs.map balanceVal) 0 with e | total
      · have hlift : M.liftE (pySum (accs.map balanceVal) 0) s1 = (.error e, s1) := by
          unfold M.liftE
          rw [hps]
        simp only [ai_portfolio_analysis, runAI, ai_portfolio_analysis_body,
          bind_eq hl, bind_eq hr, bind_err hlift]
      · have hlift : M.liftE (pySum (accs.map balanceVal) 0) s1 = (.ok total, s1) := by
          unfold M.liftE
          rw [hps]
        by_cases hcf : s1.faults s1.opIdx
        · simp only [ai_portfolio_analysis, runAI, ai_portfolio_analysis_body,
            bind_eq hl, bind_eq hr, bind_eq hlift, bind_create_fail _ _ _ _ hcf]
        · simp only [ai_portfolio_analysis, runAI, ai_portfolio_analysis_body,
            bind_eq hl, bind_eq hr, bind_eq hlift,
            bind_create_eq _ _ _ _ (by simpa using hcf), bind_log_eq, M.pure]

/-- C1: any failure raised while constructing or persisting the Compliance
document is swallowed inside `_log_compliance` (it always returns
normally), and a create or a recommendation generation whose primary store
write succeeded (no fault at its operation index) returns success no
matter what the fault oracle does to the subsequent compliance write. -/
theorem C1_compliance_failures_swallowed :
    (∀ (action resource_type : String) (resource_id : Value)
       (labels : List String) (actor_id : Value) (context : Option Doc)
       (s : DBState),
       (_log_compliance action resource_type resource_id labels actor_id context s).1 =
         Except.ok ()) ∧
    (∀ (payload : CreatePayload) (s : DBState), s.faults s.opIdx = false →
       (api_create payload s).1 =
         Resp.ok (.dict (.ofList [("id", .str ("oid" ++ toString s.nextId))]))) ∧
    (∀ (req : TaxOptimizationRequest) (s : DBState), s.faults s.opIdx = false →
       (ai_tax_optimization req s).1 =
         Resp.ok (.dict (.ofList
           [("recommendation_id", .str ("oid" ++ toString s.nextId)),
            ("strategy", .dict taxStrategy)]))) ∧
    (∀ (req : EstatePlanningRequest) (s : DBState), s.faults s.opIdx = false →
       (ai_estate_plan req s).1 =
         Resp.ok (.dict (.ofList
           [("recommendation_id", .str ("oid" ++ toString s.nextId)),
            ("plan", .dict estatePlan)]))) :=
  ⟨log_compliance_fst, api_create_eval_resp, ai_tax_eval_resp, ai_estate_eval_resp⟩

/-- Witness for C1 at a fault oracle that fails every store operation
except the first: the primary create succeeds, the compliance write
fails, yet both the create endpoint and the tax generator answer with
success, and no compliance document is persisted. -/
theorem C1_witness :
    ("oid" ++ toString (0 : Nat) = "oid0") ∧
    ((⟨[], 0, 0, faultsAfterFirst⟩ : DBState).faults
        (⟨[], 0, 0, faultsAfterFirst⟩ : DBState).opIdx = false) ∧
    (api_create ⟨"Note", .ofList [("author_id", .str "adv1")]⟩
        ⟨[], 0, 0, faultsAfterFirst⟩).1 =
      Resp.ok (.dict (.ofList [("id", .str ("oid" ++ toString (0 : Nat)))])) ∧
    (api_create ⟨"Note", .ofList [("author_id", .str "adv1")]⟩
        ⟨[], 0, 0, faultsAfterFirst⟩).2.docs =
      [("note", .cons "_id" (.str "oid0") (.ofList [("author_id", .str "adv1")]))] ∧
    (ai_tax_optimization ⟨none, 2024, .nil⟩ ⟨[], 0, 0, faultsAfterFirst⟩).1 =
      Resp.ok (.dict (.ofList
        [("recommendation_id", .str ("oid" ++ toString (0 : Nat))),
         ("strategy", .dict taxStrategy)])) :=
  ⟨by decide, by decide,
   C1_compliance_failures_swallowed.2.1 _ _ (by decide),
   by decide,
   C1_compliance_failures_swallowed.2.2.1 _ _ (by decide)⟩

/-- C2: a create request whose store writes succeed lower-cases the
collection name, delegates to the store create, returns the new
identifier, and appends exactly one Compliance document with action
`create_document`, resource type the lower-cased collection, resource id
the new identifier, labels auto-log and create, context the keys of the
data, and actor id `data.author_id or data.assignee_id`. -/
theorem C2_create_document_spec (payload : CreatePayload) (s : DBState)
    (hf : ∀ n, s.faults n = false) :
    (api_create payload s).1 =
      Resp.ok (.dict (.ofList [("id", .str ("oid" ++ toString s.nextId))])) ∧
    (api_create payload s).2.docs =
      s.docs ++
        [((pyLower payload.collection),
          .cons "_id" (.str ("oid" ++ toString s.nextId)) payload.data),
         ("compliance",
          .cons "_id" (.str ("oid" ++ toString (s.nextId + 1)))
            (complianceDoc "create_document"
              (pyOr (payload.data.getD "author_id") (payload.data.getD "assignee_id"))
              (pyLower payload.collection) (.str ("oid" ++ toString s.nextId))
              (.ofList [("fields", .list (ValueList.ofStrings payload.data.keyList))])
              ["auto-log", "create"]))] := by
  have h := api_create_eval payload s hf
  rw [h]
  exact ⟨rfl, rfl⟩

/-- Witness for C2: a concrete mixed-case create against the empty store;
the collection is lower-cased, the actor falls back to the assignee, and
exactly one compliance document is appended after the created one. -/
theorem C2_witness :
    ((∀ n, emptyState.faults n = false) ∧
     pyLower "Task" = "task" ∧
     pyOr ((PairList.ofList [("title", .str "call"), ("assignee_id", .str "adv7")]).getD "author_id")
       ((PairList.ofList [("title", .str "call"), ("assignee_id", .str "adv7")]).getD "assignee_id") =
       .str "adv7") ∧
    (api_create ⟨"Task", .ofList [("title", .str "call"), ("assignee_id", .str "adv7")]⟩
        emptyState).1 =
      Resp.ok (.dict (.ofList [("id", .str ("oid" ++ toString emptyState.nextId))])) ∧
    (api_create ⟨"Task", .ofList [("title", .str "call"), ("assignee_id", .str "adv7")]⟩
        emptyState).2.docs =
      emptyState.docs ++
        [(pyLower "Task",
          .cons "_id" (.str ("oid" ++ toString emptyState.nextId))
            (.ofList [("title", .str "call"), ("assignee_id", .str "adv7")])),
         ("compliance",
          .cons "_id" (.str ("oid" ++ toString (emptyState.nextId + 1)))
            (complianceDoc "create_document"
              (pyOr ((PairList.ofList [("title", .str "call"), ("assignee_id", .str "adv7")]).getD "author_id")
                ((PairList.ofList [("title", .str "call"), ("assignee_id", .str "adv7")]).getD "assignee_id"))
              (pyLower "Task") (.str ("oid" ++ toString emptyState.nextId))
              (.ofList [("fields", .list (ValueList.ofStrings
                (PairList.ofList [("title", .str "call"), ("assignee_id", .str "adv7")]).keyList))])
              ["auto-log", "create"]))] :=
  ⟨⟨fun _ => rfl, by decide, by decide⟩,
   C2_create_document_spec ⟨"Task", .ofList [("title", .str "call"), ("assignee_id", .str "adv7")]⟩
     emptyState (fun _ => rfl)⟩

/-- C3 counterexample: with the store failing every operation, the tax
optimization endpoint does not answer HTTP 400 with the raw error
message; the `StorageError` escapes the handler unhandled (the AI
endpoints of the source have no `try/except`), refuting the claim that
every Gateway and AI endpoint failure is caught at the boundary and
returned as HTTP 400. -/
theorem C3_counterexample :
    (ai_tax_optimization ⟨none, 2024, .nil⟩ ⟨[], 0, 0, allFaults⟩).1 =
      Resp.unhandled "StorageError" ∧
    (ai_tax_optimization ⟨none, 2024, .nil⟩ ⟨[], 0, 0, allFaults⟩).1 ≠
      Resp.httpError 400 "StorageError" := by
  constructor
  · decide
  · decide

/-- C3 amended: when the first store operation of a request fails, the
Gateway endpoints (create, list, seed) catch the failure and answer HTTP
400 with the raw error message, while the AI endpoints (portfolio, tax,
estate) let it escape the handler unhandled — a server error, not a
400. -/
theorem C3_amended_error_boundary (payload : CreatePayload) (collection : String)
    (limit : Nat) (preq : PortfolioAnalysisRequest) (treq : TaxOptimizationRequest)
    (ereq : EstatePlanningRequest) (bal : Nat → Nat → Nat → Rat) (sreq : SeedRequest)
    (s : DBState) (h0 : s.faults s.opIdx = true) :
    (api_create payload s).1 = Resp.httpError 400 "StorageError" ∧
    (api_list collection limit s).1 = Resp.httpError 400 "StorageError" ∧
    (seed_demo bal sreq s).1 = Resp.httpError 400 "StorageError" ∧
    (ai_portfolio_analysis preq s).1 = Resp.unhandled "StorageError" ∧
    (ai_tax_optimization treq s).1 = Resp.unhandled "StorageError" ∧
    (ai_estate_plan ereq s).1 = Resp.unhandled "StorageError" := by
  refine ⟨?_, ?_, ?_, ?_, ?_, ?_⟩
  · rw [api_create_eval_fail payload s h0]
  · rw [api_list_eval_fail collection limit s h0]
  · rw [seed_demo_eval_fail bal sreq s h0]
  · exact ai_portfolio_eval_fail preq s h0
  · rw [ai_tax_eval_fail treq s h0]
  · rw [ai_estate_eval_fail ereq s h0]

/-- Witness for the amended C3 with the store down from the start. -/
theorem C3_witness :
    ((⟨[], 0, 0, allFaults⟩ : DBState).faults
        (⟨[], 0, 0, allFaults⟩ : DBState).opIdx = true) ∧
    (api_create ⟨"note", .nil⟩ ⟨[], 0, 0, allFaults⟩).1 =
      Resp.httpError 400 "StorageError" ∧
    (api_list "client" 50 ⟨[], 0, 0, allFaults⟩).1 =
      Resp.httpError 400 "StorageError" ∧
    (seed_demo zeroBal ⟨20⟩ ⟨[], 0, 0, allFaults⟩).1 =
      Resp.httpError 400 "StorageError" ∧
    (ai_portfolio_analysis ⟨none, [], [], .nil⟩ ⟨[], 0, 0, allFaults⟩).1 =
      Resp.unhandled "StorageError" ∧
    (ai_tax_optimization ⟨none, 2024, .nil⟩ ⟨[], 0, 0, allFaults⟩).1 =
      Resp.unhandled "StorageError" ∧
    (ai_estate_plan ⟨none, [], .nil⟩ ⟨[], 0, 0, allFaults⟩).1 =
      Resp.unhandled "StorageError" :=
  ⟨by decide,
   C3_amended_error_boundary ⟨"note", .nil⟩ "client" 50 ⟨none, [], [], .nil⟩
     ⟨none, 2024, .nil⟩ ⟨none, [], .nil⟩ zeroBal ⟨20⟩ ⟨[], 0, 0, allFaults⟩ (by decide)⟩

/-- C4: a portfolio-analysis request whose store operations succeed
returns a summary whose total balance is the sum of the balance fields of
the accounts fetched for the request and whose target allocations are the
fixed constants equities 0.6, fixed income 0.35, cash 0.05. -/
theorem C4_portfolio_summary (req : PortfolioAnalysisRequest) (s s1 : DBState)
    (accs : List Doc)
    (hacc : fetchAccounts req s = (.ok accs, s1))
    (hnum : ∀ v ∈ accs.map balanceVal, (v.toNum).isSome)
    (hf : ∀ n, s.faults n = false) :
    (ai_portfolio_analysis req s).1 =
      Resp.ok (.dict (.ofList
        [("summary", .dict (.ofList
            [("total_balance", .num (sumNums (accs.map balanceVal))),
             ("target_allocations", .dict targetAllocations)])),
         ("recommendation_id", .str ("oid" ++ toString s1.nextId))])) := by
  have hp := preservesOracle_fetchAccounts req s
  rw [hacc] at hp
  simp only at hp
  have hf1 : ∀ n, s1.faults n = false := by
    intro n
    rw [hp]
    exact hf n
  rw [ai_portfolio_eval req s s1 accs (sumNums (accs.map balanceVal)) hacc
    (pySum_eq_sumNums _ hnum) hf1]

/-- Witness for C4: three accounts of household h1 with balances 100, 200
and 300 yield a total balance of 600 and the fixed allocations. -/
theorem C4_witness :
    fetchAccounts ⟨some "h1", [], [], .nil⟩ threeAccountsState =
      (.ok [(sampleAccount "h1" (mkRat 100 1)).2, (sampleAccount "h1" (mkRat 200 1)).2,
            (sampleAccount "h1" (mkRat 300 1)).2],
       ⟨threeAccountsState.docs, 0, 1, noFaults⟩) ∧
    sumNums ([(sampleAccount "h1" (mkRat 100 1)).2, (sampleAccount "h1" (mkRat 200 1)).2,
              (sampleAccount "h1" (mkRat 300 1)).2].map balanceVal) = (600 : Rat) ∧
    (ai_portfolio_analysis ⟨some "h1", [], [], .nil⟩ threeAccountsState).1 =
      Resp.ok (.dict (.ofList
        [("summary", .dict (.ofList
            [("total_balance", .num (sumNums
                ([(sampleAccount "h1" (mkRat 100 1)).2, (sampleAccount "h1" (mkRat 200 1)).2,
                  (sampleAccount "h1" (mkRat 300 1)).2].map balanceVal))),
             ("target_allocations", .dict targetAllocations)])),
         ("recommendation_id", .str ("oid" ++ toString (0 : Nat)))])) :=
  ⟨rfl, by decide,
   C4_portfolio_summary ⟨some "h1", [], [], .nil⟩ threeAccountsState
     ⟨threeAccountsState.docs, 0, 1, noFaults⟩
     [(sampleAccount "h1" (mkRat 100 1)).2, (sampleAccount "h1" (mkRat 200 1)).2,
      (sampleAccount "h1" (mkRat 300 1)).2]
     rfl (by decide) (fun _ => rfl)⟩

/-- C5: under a fault-free store, each of the three recommendation
generators persists exactly one Recommendation document with status
proposed, logs one Compliance entry with action generate_recommendation,
actor none and labels identifying the category, and returns the new
recommendation identifier together with the computed payload. -/
theorem C5_generators_persist_and_log :
    (∀ (req : TaxOptimizationRequest) (s : DBState), (∀ n, s.faults n = false) →
       (taxRecoDoc req.year).lookup "status" = some (.str "proposed") ∧
       (ai_tax_optimization req s).2.docs =
         s.docs ++
           [("recommendation",
             .cons "_id" (.str ("oid" ++ toString s.nextId)) (taxRecoDoc req.year)),
            ("compliance",
             .cons "_id" (.str ("oid" ++ toString (s.nextId + 1)))
               (complianceDoc "generate_recommendation" .null "recommendation"
                 (.str ("oid" ++ toString s.nextId))
                 (.ofList [("category", .str "tax"), ("year", .num (mkRat req.year 1))])
                 ["ai", "tax"]))] ∧
       (ai_tax_optimization req s).1 =
         Resp.ok (.dict (.ofList
           [("recommendation_id", .str ("oid" ++ toString s.nextId)),
            ("strategy", .dict taxStrategy)]))) ∧
    (∀ (req : EstatePlanningRequest) (s : DBState), (∀ n, s.faults n = false) →
       (estateRecoDoc req.household_id).lookup "status" = some (.str "proposed") ∧
       (ai_estate_plan req s).2.docs =
         s.docs ++
           [("recommendation",
             .cons "_id" (.str ("oid" ++ toString s.nextId))
               (estateRecoDoc req.household_id)),
            ("compliance",
             .cons "_id" (.str ("oid" ++ toString (s.nextId + 1)))
               (complianceDoc "generate_recommendation" .null "recommendation"
                 (.str ("oid" ++ toString s.nextId))
                 (.ofList [("category", .str "estate")])
                 ["ai", "estate"]))] ∧
       (ai_estate_plan req s).1 =
         Resp.ok (.dict (.ofList
           [("recommendation_id", .str ("oid" ++ toString s.nextId)),
            ("plan", .dict estatePlan)]))) ∧
    (∀ (req : PortfolioAnalysisRequest) (s s1 : DBState) (accs : List Doc) (total : Rat),
       fetchAccounts req s = (.ok accs, s1) →
       pySum (accs.map balanceVal) 0 = .ok total →
       (∀ n, s.faults n = false) →
       (portfolioRecoDoc req.household_id total).lookup "status" = some (.str "proposed") ∧
       (ai_portfolio_analysis req s).2.docs =
         s.docs ++
           [("recommendation",
             .cons "_id" (.str ("oid" ++ toString s1.nextId))
               (portfolioRecoDoc req.household_id total)),
            ("compliance",
             .cons "_id" (.str ("oid" ++ toString (s1.nextId + 1)))
               (complianceDoc "generate_recommendation" .null "recommendation"
                 (.str ("oid" ++ toString s1.nextId))
                 (.ofList [("category", .str "investment")])
                 ["ai", "portfolio"]))] ∧
       (ai_portfolio_analysis req s).1 =
         Resp.ok (.dict (.ofList
           [("summary", .dict (.ofList
               [("total_balance", .num total),
                ("target_allocations", .dict targetAllocations)])),
            ("recommendation_id", .str ("oid" ++ toString s1.nextId))]))) := by
  refine ⟨?_, ?_, ?_⟩
  · intro req s hf
    rw [ai_tax_eval req s hf]
    exact ⟨rfl, rfl, rfl⟩
  · intro req s hf
    rw [ai_estate_eval req s hf]
    exact ⟨rfl, rfl, rfl⟩
  · intro req s s1 accs total hacc hsum hf
    have hp := preservesOracle_fetchAccounts req s
    rw [hacc] at hp
    simp only at hp
    have hf1 : ∀ n, s1.faults n = false := fun n => by
      rw [hp]
      exact hf n
    have hdocs := readsOnly_fetchAccounts req s
    rw [hacc] at hdocs
    simp only at hdocs
    rw [ai_portfolio_eval req s s1 accs total hacc hsum hf1]
    exact ⟨rfl, by rw [hdocs], rfl⟩

/-- Witness for C5 at concrete inputs for all three generators. -/
theorem C5_witness :
    (∀ n, emptyState.faults n = false) ∧
    (taxRecoDoc 2024).lookup "status" = some (.str "proposed") ∧
    (ai_tax_optimization ⟨none, 2024, .nil⟩ emptyState).1 =
      Resp.ok (.dict (.ofList
        [("recommendation_id", .str ("oid" ++ toString emptyState.nextId)),
         ("strategy", .dict taxStrategy)])) ∧
    (ai_estate_plan ⟨some "h9", [], .nil⟩ emptyState).1 =
      Resp.ok (.dict (.ofList
        [("recommendation_id", .str ("oid" ++ toString emptyState.nextId)),
         ("plan", .dict estatePlan)])) ∧
    (ai_portfolio_analysis ⟨some "h1", [], [], .nil⟩ threeAccountsState).2.docs =
      threeAccountsState.docs ++
        [("recommendation",
          .cons "_id" (.str ("oid" ++ toString (0 : Nat)))
            (portfolioRecoDoc (some "h1") 600)),
         ("compliance",
          .cons "_id" (.str ("oid" ++ toString ((0 : Nat) + 1)))
            (complianceDoc "generate_recommendation" .null "recommendation"
              (.str ("oid" ++ toString (0 : Nat)))
              (.ofList [("category", .str "investment")])
              ["ai", "portfolio"]))] :=
  ⟨fun _ => rfl,
   (C5_generators_persist_and_log.1 ⟨none, 2024, .nil⟩ emptyState (fun _ => rfl)).1,
   (C5_generators_persist_and_log.1 ⟨none, 2024, .nil⟩ emptyState (fun _ => rfl)).2.2,
   (C5_generators_persist_and_log.2.1 ⟨some "h9", [], .nil⟩ emptyState (fun _ => rfl)).2.2,
   (C5_generators_persist_and_log.2.2 ⟨some "h1", [], [], .nil⟩ threeAccountsState
      ⟨threeAccountsState.docs, 0, 1, noFaults⟩
      [(sampleAccount "h1" (mkRat 100 1)).2, (sampleAccount "h1" (mkRat 200 1)).2,
       (sampleAccount "h1" (mkRat 300 1)).2]
      600 rfl rfl (fun _ => rfl)).2.1⟩

theorem okPres_pure {α : Type} (a : α) :
    ∀ s, (∀ n, s.faults n = false) →
      ∃ b s2, M.pure a s = (.ok b, s2) ∧ s2.faults = s.faults :=
  fun s _ => ⟨a, s, rfl, rfl⟩

theorem okPres_bind {α β : Type} {m : M α} {g : α → M β}
    (hm : ∀ s, (∀ n, s.faults n = false) →
      ∃ a s2, m s = (.ok a, s2) ∧ s2.faults = s.faults)
    (hg : ∀ a s, (∀ n, s.faults n = false) →
      ∃ b s2, g a s = (.ok b, s2) ∧ s2.faults = s.faults) :
    ∀ s, (∀ n, s.faults n = false) →
      ∃ b s2, M.bind m g s = (.ok b, s2) ∧ s2.faults = s.faults := by
  intro s hf
  obtain ⟨a, s1, h1, hfa1⟩ := hm s hf
  obtain ⟨b, s2, h2, hfa2⟩ := hg a s1 (fun n => by rw [hfa1]; exact hf n)
  exact ⟨b, s2, by rw [bind_eq h1]; exact h2, by rw [hfa2, hfa1]⟩

theorem okPres_create (c : String) (d : Doc) :
    ∀ s, (∀ n, s.faults n = false) →
      ∃ a s2, create_document c d s = (.ok a, s2) ∧ s2.faults = s.faults := by
  intro s hf
  unfold create_document DBState.tick
  simp only [hf, Bool.false_eq_true, if_false]
  exact ⟨_, _, rfl, rfl⟩

theorem okPres_get (c : String) (flt : Doc) (lim : Nat) :
    ∀ s, (∀ n, s.faults n = false) →
      ∃ a s2, get_documents c flt lim s = (.ok a, s2) ∧ s2.faults = s.faults := by
  intro s hf
  unfold get_documents DBState.tick
  simp only [hf, Bool.false_eq_true, if_false]
  exact ⟨_, _, rfl, rfl⟩

theorem okPres_log (action resource_type : String) (resource_id : Value)
    (labels : List String) (actor_id : Value) (context : Option Doc) :
    ∀ s, (∀ n, s.faults n = false) →
      ∃ a s2, _log_compliance action resource_type resource_id labels actor_id context s =
        (.ok a, s2) ∧ s2.faults = s.faults := by
  intro s hf
  rcases h : _log_compliance action resource_type resource_id labels actor_id context s
    with ⟨r, s2⟩
  have h1 := log_compliance_fst action resource_type resource_id labels actor_id context s
  rw [h] at h1
  simp only at h1
  subst h1
  have h2 := preservesOracle_log action resource_type resource_id labels actor_id context s
  rw [h] at h2
  simp only at h2
  exact ⟨(), s2, rfl, h2⟩

theorem okPres_seedAccounts (bal : Nat → Nat → Nat → Rat) (client_id : String)
    (hid : Value) (i num_accounts : Nat) (js : List Nat) :
    ∀ s, (∀ n, s.faults n = false) →
      ∃ a s2, seedAccounts bal client_id hid i num_accounts js s =
        (.ok a, s2) ∧ s2.faults = s.faults := by
  induction js with
  | nil => exact okPres_pure _
  | cons j js ih =>
      exact okPres_bind (okPres_create _ _) fun _ =>
        okPres_bind (okPres_log _ _ _ _ _ _) fun _ => ih

theorem okPres_seedHouseholds (l : List (Nat × String)) :
    ∀ s, (∀ n, s.faults n = false) →
      ∃ a s2, seedHouseholds l s = (.ok a, s2) ∧ s2.faults = s.faults := by
  induction l with
  | nil => exact okPres_pure _
  | cons p rest ih =>
      rcases p with ⟨i, name⟩
      exact okPres_bind (okPres_create _ _) fun _ =>
        okPres_bind (okPres_log _ _ _ _ _ _) fun _ =>
          okPres_bind ih fun _ => okPres_pure _

theorem okPres_seedClients (bal : Nat → Nat → Nat → Rat) (household_ids : List String)
    (ks : List Nat) :
    ∀ s, (∀ n, s.faults n = false) →
      ∃ a s2, seedClients bal household_ids ks s = (.ok a, s2) ∧ s2.faults = s.faults := by
  induction ks with
  | nil => exact okPres_pure _
  | cons i ks ih =>
      exact okPres_bind (okPres_create _ _) fun _ =>
        okPres_bind (okPres_log _ _ _ _ _ _) fun _ =>
          okPres_bind (okPres_seedAccounts _ _ _ _ _ _) fun _ =>
            okPres_bind ih fun _ => okPres_pure _

theorem okPres_seed_demo_body (bal : Nat → Nat → Nat → Rat) (count_clients : Nat) :
    ∀ s, (∀ n, s.faults n = false) →
      ∃ a s2, seed_demo_body bal count_clients s = (.ok a, s2) ∧ s2.faults = s.faults :=
  okPres_bind (okPres_get _ _ _) fun existing => by
    rcases existing with _ | ⟨d, rest⟩
    · exact okPres_bind (okPres_seedHouseholds _) fun _ =>
        okPres_bind (okPres_seedClients _ _ _) fun _ => okPres_pure _
    · exact okPres_pure _

theorem okPres_bind_filter {α β : Type} {P : String × Doc → Bool} {m : M α} {g : α → M β}
    (hm : ∀ s, (∀ n, s.faults n = false) →
      ∃ a s2, m s = (.ok a, s2) ∧ s2.faults = s.faults)
    (hg : ∀ a s2, (∀ n, s2.faults n = false) →
      (((g a) s2).2).docs.filter P ≠ []) :
    ∀ s, (∀ n, s.faults n = false) → (((M.bind m g) s).2).docs.filter P ≠ [] := by
  intro s hf
  obtain ⟨a, s2, h1, hfa⟩ := hm s hf
  rw [show M.bind m g s = g a s2 from bind_eq h1 g]
  exact hg a s2 (fun n => by rw [hfa]; exact hf n)

theorem bind_keeps_filter {α β : Type} (P : String × Doc → Bool) (m : M α)
    (g : α → M β) (s : DBState)
    (hm : ((m s).2).docs.filter P ≠ [])
    (hg : ∀ a, AppendsDocs (g a)) :
    (((M.bind m g) s).2).docs.filter P ≠ [] := by
  rcases hr : m s with ⟨r, s1⟩
  rw [hr] at hm
  simp only at hm
  cases r with
  | error e =>
      simp only [M.bind, hr]
      exact hm
  | ok a =>
      obtain ⟨t, ht⟩ := hg a s1
      simp only [M.bind, hr, ht]
      rw [List.filter_append]
      intro hcontra
      exact hm (List.append_eq_nil.mp hcontra).1

theorem bind_create_keeps_doc {β : Type} (c : String) (d : Doc) (f : String → M β)
    (hap : ∀ a, AppendsDocs (f a)) (s : DBState) (h0 : s.faults s.opIdx = false) :
    (((M.bind (create_document c d) f) s).2).docs.filter (fun x => x.1 == c) ≠ [] := by
  rw [bind_create_eq _ _ _ _ h0]
  obtain ⟨t, ht⟩ := hap ("oid" ++ toString s.nextId)
    ⟨s.docs ++ [(c, .cons "_id" (.str ("oid" ++ toString s.nextId)) d)],
     s.nextId + 1, s.opIdx + 1, s.faults⟩
  rw [ht]
  simp [List.filter_append, List.append_eq_nil]

theorem seedClients_cons_has_client (bal : Nat → Nat → Nat → Rat)
    (hids : List String) (i : Nat) (ks : List Nat) (s : DBState)
    (h0 : s.faults s.opIdx = false) :
    ((seedClients bal hids (i :: ks) s).2).docs.filter (fun x => x.1 == "client") ≠ [] := by
  refine bind_create_keeps_doc "client" _ _ ?_ s h0
  intro a
  exact appendsDocs_bind (appendsDocs_log _ _ _ _ _ _) (fun _ =>
    appendsDocs_bind (appendsDocs_seedAccounts _ _ _ _ _ _) (fun _ =>
      appendsDocs_bind (appendsDocs_seedClients _ _ _) (fun _ => appendsDocs_pure _)))

theorem seed_creates_client (bal : Nat → Nat → Nat → Rat) (k : Nat) (s : DBState)
    (hf : ∀ n, s.faults n = false)
    (hcl0 : s.docs.filter (fun x => x.1 == "client") = []) :
    ((seed_demo bal ⟨k + 1⟩ s).2).docs.filter (fun x => x.1 == "client") ≠ [] := by
  have h0 : s.faults s.opIdx = false := hf _
  simp only [seed_demo, runGateway_snd, seed_demo_body, bind_get_eq _ _ _ _ _ h0, hcl0,
    List.map_nil, List.filter_nil, List.take_nil]
  refine okPres_bind_filter (okPres_seedHouseholds household_names.enum) ?_ _ (fun n => hf n)
  intro hids s2 hf2
  rw [List.range_succ_eq_map]
  refine bind_keeps_filter _ _ _ s2 ?_ (fun created => appendsDocs_pure _)
  exact seedClients_cons_has_client bal hids 0 _ s2 (hf2 _)

theorem seed_demo_state_eq (bal : Nat → Nat → Nat → Rat) (req : SeedRequest)
    (s : DBState) (hf : ∀ n, s.faults n = false) :
    ∀ n, ((seed_demo bal req s).2).faults n = false := by
  obtain ⟨v, s2, hbody, hfa⟩ := okPres_seed_demo_body bal req.count_clients s hf
  intro n
  have hst : (seed_demo bal req s).2 = s2 := by
    simp only [seed_demo]
    rw [runGateway_snd, hbody]
  rw [hst, hfa]
  exact hf n

/-- C6: a seed-demo request against a store that already holds at least
one client document (the guard read succeeding) returns created 0 with
the skip message and writes no documents to any collection; consequently
a second seed call right after a first one (with no interleaving, the
store fault-free) creates nothing. -/
theorem C6_seed_skip_when_client_exists :
    (∀ (bal : Nat → Nat → Nat → Rat) (req : SeedRequest) (s : DBState),
       s.faults s.opIdx = false →
       s.docs.filter (fun x => x.1 == "client") ≠ [] →
       (seed_demo bal req s).1 = Resp.ok seedSkipResp ∧
       (seed_demo bal req s).2.docs = s.docs) ∧
    (∀ (bal : Nat → Nat → Nat → Rat) (k m : Nat) (s : DBState),
       (∀ n, s.faults n = false) →
       (seed_demo bal ⟨m⟩ ((seed_demo bal ⟨k + 1⟩ s).2)).1 = Resp.ok seedSkipResp ∧
       (seed_demo bal ⟨m⟩ ((seed_demo bal ⟨k + 1⟩ s).2)).2.docs =
         ((seed_demo bal ⟨k + 1⟩ s).2).docs) := by
  constructor
  · intro bal req s h0 hcl
    rw [seed_demo_skip bal req s h0 hcl]
    exact ⟨rfl, rfl⟩
  · intro bal k m s hf
    have hf1 := seed_demo_state_eq bal ⟨k + 1⟩ s hf
    have hcl1 : ((seed_demo bal ⟨k + 1⟩ s).2).docs.filter (fun x => x.1 == "client") ≠ [] := by
      rcases hcase : s.docs.filter (fun x => x.1 == "client") with _ | ⟨p, rest⟩
      · exact seed_creates_client bal k s hf hcase
      · have hskip := seed_demo_skip bal ⟨k + 1⟩ s (hf _) (by rw [hcase]; simp)
        rw [hskip]
        simp only
        rw [hcase]
        simp
    rw [seed_demo_skip bal ⟨m⟩ ((seed_demo bal ⟨k + 1⟩ s).2) (hf1 _) hcl1]
    exact ⟨rfl, rfl⟩

/-- Witness for C6: a store with one client document skips and stays
unchanged; and the empty store seeded once (one client requested) is not
re-seeded by an immediately following call. -/
theorem C6_witness :
    (clientState.faults clientState.opIdx = false) ∧
    (clientState.docs.filter (fun x => x.1 == "client") ≠ []) ∧
    ((seed_demo zeroBal ⟨20⟩ clientState).1 = Resp.ok seedSkipResp ∧
     (seed_demo zeroBal ⟨20⟩ clientState).2.docs = clientState.docs) ∧
    ((seed_demo zeroBal ⟨7⟩ ((seed_demo zeroBal ⟨0 + 1⟩ emptyState).2)).1 =
       Resp.ok seedSkipResp ∧
     (seed_demo zeroBal ⟨7⟩ ((seed_demo zeroBal ⟨0 + 1⟩ emptyState).2)).2.docs =
       ((seed_demo zeroBal ⟨0 + 1⟩ emptyState).2).docs) :=
  ⟨by decide, by decide,
   C6_seed_skip_when_client_exists.1 zeroBal ⟨20⟩ clientState (by decide) (by decide),
   C6_seed_skip_when_client_exists.2 zeroBal 0 7 emptyState (fun _ => rfl)⟩

/-- C7: for every tax-optimization request (any year), the returned
strategy has harvest_loss_threshold 3000 together with the fixed
asset-location and Roth-conversion texts. -/
theorem C7_tax_strategy_fixed (req : TaxOptimizationRequest) (s : DBState)
    (h0 : s.faults s.opIdx = false) :
    (ai_tax_optimization req s).1 =
      Resp.ok (.dict (.ofList
        [("recommendation_id", .str ("oid" ++ toString s.nextId)),
         ("strategy", .dict taxStrategy)])) ∧
    taxStrategy.lookup "harvest_loss_threshold" = some (.num 3000) ∧
    taxStrategy.lookup "asset_location" =
      some (.str "place bonds in tax-advantaged accounts") ∧
    taxStrategy.lookup "roth_conversion" =
      some (.str "consider partial conversions if current bracket < future") :=
  ⟨ai_tax_eval_resp req s h0, by decide, by decide, by decide⟩

/-- Witness for C7 at year 2024 against the empty store. -/
theorem C7_witness :
    (emptyState.faults emptyState.opIdx = false) ∧
    (ai_tax_optimization ⟨none, 2024, .nil⟩ emptyState).1 =
      Resp.ok (.dict (.ofList
        [("recommendation_id", .str ("oid" ++ toString emptyState.nextId)),
         ("strategy", .dict taxStrategy)])) ∧
    taxStrategy.lookup "harvest_loss_threshold" = some (.num 3000) :=
  ⟨rfl, (C7_tax_strategy_fixed ⟨none, 2024, .nil⟩ emptyState rfl).1,
   (C7_tax_strategy_fixed ⟨none, 2024, .nil⟩ emptyState rfl).2.1⟩

/-- C8: every endpoint of the system only appends documents: from any
starting store state, the documents present before the call are an
unchanged prefix of the documents after it (nothing is ever updated or
deleted). -/
theorem C8_store_is_append_only (s : DBState) (payload : CreatePayload)
    (collection : String) (limit : Nat) (preq : PortfolioAnalysisRequest)
    (treq : TaxOptimizationRequest) (ereq : EstatePlanningRequest)
    (bal : Nat → Nat → Nat → Rat) (sreq : SeedRequest) :
    (∃ t, ((read_root s).2).docs = s.docs ++ t) ∧
    (∃ t, ((get_schema_registry s).2).docs = s.docs ++ t) ∧
    (∃ t, ((api_create payload s).2).docs = s.docs ++ t) ∧
    (∃ t, ((api_list collection limit s).2).docs = s.docs ++ t) ∧
    (∃ t, ((ai_portfolio_analysis preq s).2).docs = s.docs ++ t) ∧
    (∃ t, ((ai_tax_optimization treq s).2).docs = s.docs ++ t) ∧
    (∃ t, ((ai_estate_plan ereq s).2).docs = s.docs ++ t) ∧
    (∃ t, ((seed_demo bal sreq s).2).docs = s.docs ++ t) ∧
    (∃ t, ((test_database s).2).docs = s.docs ++ t) := by
  refine ⟨⟨[], by simp [read_root]⟩, ⟨[], by simp [get_schema_registry]⟩,
    ?_, ?_, ?_, ?_, ?_, ?_, ?_⟩
  · obtain ⟨t, ht⟩ := appendsDocs_api_create_body (pyLower payload.collection) payload.data s
    refine ⟨t, ?_⟩
    simp only [api_create]
    rw [runGateway_snd]
    exact ht
  · have h : AppendsDocs (M.bind (get_documents (pyLower collection) .nil limit)
        (fun docs => M.pure (Value.dict (.ofList
          [("items", .list (ValueList.ofList (docs.map Value.dict)))])))) :=
      appendsDocs_bind (appendsDocs_get _ _ _) (fun _ => appendsDocs_pure _)
    obtain ⟨t, ht⟩ := h s
    refine ⟨t, ?_⟩
    simp only [api_list]
    rw [runGateway_snd]
    exact ht
  · obtain ⟨t, ht⟩ := appendsDocs_ai_portfolio_body preq s
    refine ⟨t, ?_⟩
    simp only [ai_portfolio_analysis]
    rw [runAI_snd]
    exact ht
  · obtain ⟨t, ht⟩ := appendsDocs_ai_tax_body treq s
    refine ⟨t, ?_⟩
    simp only [ai_tax_optimization]
    rw [runAI_snd]
    exact ht
  · obtain ⟨t, ht⟩ := appendsDocs_ai_estate_body ereq s
    refine ⟨t, ?_⟩
    simp only [ai_estate_plan]
    rw [runAI_snd]
    exact ht
  · obtain ⟨t, ht⟩ := appendsDocs_seed_demo_body bal sreq.count_clients s
    refine ⟨t, ?_⟩
    simp only [seed_demo]
    rw [runGateway_snd]
    exact ht
  · refine ⟨[], ?_⟩
    unfold test_database
    split <;> simp [DBState.tick]

/-- C9: any two tax-optimization requests yield equal strategy objects
and any two estate-planning requests yield equal plan objects, whatever
the request contents and store states; the portfolio generator's target
allocations are likewise the fixed constant, its total balance being the
only input-dependent field. -/
theorem C9_fixed_generator_outputs :
    (∀ (t1 t2 : TaxOptimizationRequest) (s1 s2 : DBState),
       s1.faults s1.opIdx = false → s2.faults s2.opIdx = false →
       respField ((ai_tax_optimization t1 s1).1) "strategy" =
         respField ((ai_tax_optimization t2 s2).1) "strategy" ∧
       respField ((ai_tax_optimization t1 s1).1) "strategy" =
         some (.dict taxStrategy)) ∧
    (∀ (e1 e2 : EstatePlanningRequest) (s1 s2 : DBState),
       s1.faults s1.opIdx = false → s2.faults s2.opIdx = false →
       respField ((ai_estate_plan e1 s1).1) "plan" =
         respField ((ai_estate_plan e2 s2).1) "plan" ∧
       respField ((ai_estate_plan e1 s1).1) "plan" = some (.dict estatePlan)) ∧
    (∀ (req : PortfolioAnalysisRequest) (s s1 : DBState) (accs : List Doc) (total : Rat),
       fetchAccounts req s = (.ok accs, s1) →
       pySum (accs.map balanceVal) 0 = .ok total →
       (∀ n, s.faults n = false) →
       summaryField ((ai_portfolio_analysis req s).1) "target_allocations" =
         some (.dict targetAllocations)) := by
  refine ⟨?_, ?_, ?_⟩
  · intro t1 t2 s1 s2 h1 h2
    rw [ai_tax_eval_resp t1 s1 h1, ai_tax_eval_resp t2 s2 h2]
    exact ⟨rfl, rfl⟩
  · intro e1 e2 s1 s2 h1 h2
    rw [ai_estate_eval_resp e1 s1 h1, ai_estate_eval_resp e2 s2 h2]
    exact ⟨rfl, rfl⟩
  · intro req s s1 accs total hacc hsum hf
    have hp := preservesOracle_fetchAccounts req s
    rw [hacc] at hp
    simp only at hp
    have hf1 : ∀ n, s1.faults n = false := fun n => by
      rw [hp]
      exact hf n
    rw [ai_portfolio_eval req s s1 accs total hacc hsum hf1]
    rfl

/-- Witness for C9: two tax requests differing in household, year,
assumptions and store state return the same strategy; likewise for two
estate requests; a concrete portfolio run returns the fixed
allocations. -/
theorem C9_witness :
    respField ((ai_tax_optimization ⟨some "hA", 2024, .nil⟩ emptyState).1) "strategy" =
      respField ((ai_tax_optimization ⟨some "hB", 1999,
        .ofList [("bracket", .str "high")]⟩ threeAccountsState).1) "strategy" ∧
    respField ((ai_estate_plan ⟨some "hA", [], .nil⟩ emptyState).1) "plan" =
      respField ((ai_estate_plan ⟨none, ["legacy"],
        .ofList [("minor_children", .bool true)]⟩ emptyState).1) "plan" ∧
    summaryField ((ai_portfolio_analysis ⟨some "h1", [], [], .nil⟩
        threeAccountsState).1) "target_allocations" =
      some (.dict targetAllocations) :=
  ⟨(C9_fixed_generator_outputs.1 ⟨some "hA", 2024, .nil⟩
      ⟨some "hB", 1999, .ofList [("bracket", .str "high")]⟩
      emptyState threeAccountsState rfl rfl).1,
   (C9_fixed_generator_outputs.2.1 ⟨some "hA", [], .nil⟩
      ⟨none, ["legacy"], .ofList [("minor_children", .bool true)]⟩
      emptyState emptyState rfl rfl).1,
   C9_fixed_generator_outputs.2.2 ⟨some "h1", [], [], .nil⟩ threeAccountsState
     ⟨threeAccountsState.docs, 0, 1, noFaults⟩
     [(sampleAccount "h1" (mkRat 100 1)).2, (sampleAccount "h1" (mkRat 200 1)).2,
      (sampleAccount "h1" (mkRat 300 1)).2]
     600 rfl rfl (fun _ => rfl)⟩

/-- C10: with a non-empty account_ids list, the accounts are fetched only
through the per-identifier limit-1 queries and the household_id field is
never consulted (fetch and response are unchanged under any household_id,
objectives and constraints); the household-wide limit-500 read happens
exactly when account_ids is empty and household_id is a non-empty
string. -/
theorem C10_fetch_only_by_ids (hh h' : Option String) (a : String)
    (rest : List String) (o o' : List String) (c c' : Doc) (s : DBState) :
    fetchAccounts ⟨hh, a :: rest, o, c⟩ s = fetchByIds (a :: rest) s ∧
    fetchAccounts ⟨hh, a :: rest, o, c⟩ s = fetchAccounts ⟨h', a :: rest, o', c'⟩ s ∧
    (ai_portfolio_analysis ⟨hh, a :: rest, o, c⟩ s).1 =
      (ai_portfolio_analysis ⟨h', a :: rest, o', c'⟩ s).1 ∧
    (∀ hhh : String, (hhh == "") = false →
       fetchAccounts ⟨some hhh, [], o, c⟩ s =
         get_documents "account" (.ofList [("household_id", .str hhh)]) 500 s) ∧
    fetchAccounts ⟨none, [], o, c⟩ s = (.ok [], s) ∧
    fetchAccounts ⟨some "", [], o, c⟩ s = (.ok [], s) := by
  refine ⟨rfl, rfl,
    ai_portfolio_resp_ignores_rest hh h' (a :: rest) o o' c c' s (by simp),
    ?_, rfl, rfl⟩
  intro hhh hne
  unfold fetchAccounts
  simp [hne]

/-- Witness for C10 at a concrete request with one account id. -/
theorem C10_witness :
    fetchAccounts ⟨some "hZ", ["a1"], [], .nil⟩ emptyState =
      fetchByIds ["a1"] emptyState ∧
    fetchAccounts ⟨some "hZ", ["a1"], [], .nil⟩ emptyState =
      fetchAccounts ⟨none, ["a1"], ["growth"], .nil⟩ emptyState ∧
    (ai_portfolio_analysis ⟨some "hZ", ["a1"], [], .nil⟩ emptyState).1 =
      (ai_portfolio_analysis ⟨none, ["a1"], ["growth"], .nil⟩ emptyState).1 ∧
    fetchAccounts ⟨some "h1", [], [], .nil⟩ emptyState =
      get_documents "account" (.ofList [("household_id", .str "h1")]) 500 emptyState :=
  ⟨(C10_fetch_only_by_ids (some "hZ") none "a1" [] [] ["growth"] .nil .nil emptyState).1,
   (C10_fetch_only_by_ids (some "hZ") none "a1" [] [] ["growth"] .nil .nil emptyState).2.1,
   (C10_fetch_only_by_ids (some "hZ") none "a1" [] [] ["growth"] .nil .nil emptyState).2.2.1,
   (C10_fetch_only_by_ids (some "hZ") none "a1" [] [] ["growth"] .nil .nil
      emptyState).2.2.2.1 "h1" (by decide)⟩
